import Mathlib

/-!
Verification of the extraction-and-normalization pipeline of the
`estates-scraping-bds` repository against its specification.

The Python source is shallowly embedded: every extractor becomes an
executable Lean function over an explicit record type; CPython's `re`
backtracking search is embedded by a small fuelled backtracking engine
over regex ASTs transcribed from the source patterns; `rapidfuzz`'s
`fuzz.ratio` is embedded through the longest-common-subsequence formula
`200·LCS/(|a|+|b|)`.

Python `float` values are modelled as exact rationals.  To keep every
definition kernel-executable they are represented by the unreduced
fraction type `PRat` (numerator/denominator with all arithmetic done on
`Int`, no gcd normalisation); `PRat.toRat` interprets a `PRat` in `ℚ`
and is used in theorem statements.

Python exceptions (`KeyError`, `AttributeError`, …) are modelled with
`Except PyErr`; extractors that can only raise on inputs outside the
shapes produced by the pipeline still carry the error case faithfully.
-/

set_option maxHeartbeats 1000000
set_option maxRecDepth 100000

namespace BDS

/-! ## Exact rationals with kernel-computable arithmetic -/

/-- Unreduced rational number: Python floats are modelled as exact
rationals, and this representation keeps all arithmetic inside `Int`
primitives so that concrete runs of the embedded extractors reduce in
the kernel.  The invariant `0 < den` is maintained by all constructions
used in the development (see `PRat.WF`). -/
structure PRat where
  num : Int
  den : Int
deriving DecidableEq

/-- Interpretation of a `PRat` as a rational number. -/
def PRat.toRat (q : PRat) : ℚ := (q.num : ℚ) / (q.den : ℚ)

/-- Well-formedness: positive denominator. -/
def PRat.WF (q : PRat) : Prop := 0 < q.den

/-- Embeds a Python int. -/
def pyInt (n : Int) : PRat := ⟨n, 1⟩

def PRat.add (a b : PRat) : PRat := ⟨a.num * b.den + b.num * a.den, a.den * b.den⟩

def PRat.sub (a b : PRat) : PRat := ⟨a.num * b.den - b.num * a.den, a.den * b.den⟩

def PRat.mul (a b : PRat) : PRat := ⟨a.num * b.num, a.den * b.den⟩

/-- Division, normalising the sign into the numerator so that the
positive-denominator invariant is preserved (assuming `b ≠ 0`). -/
def PRat.div (a b : PRat) : PRat :=
  let n := a.num * b.den
  let d := a.den * b.num
  if d < 0 then ⟨-n, -d⟩ else ⟨n, d⟩

/-- Boolean `a ≤ b` by cross multiplication (valid for positive
denominators). -/
def PRat.ble (a b : PRat) : Bool := a.num * b.den ≤ b.num * a.den

/-- Boolean `a < b` by cross multiplication. -/
def PRat.blt (a b : PRat) : Bool := a.num * b.den < b.num * a.den

/-- Boolean equality by cross multiplication. -/
def PRat.beq (a b : PRat) : Bool := a.num * b.den == b.num * a.den

def PRat.abs (a : PRat) : PRat := ⟨|a.num|, a.den⟩

/-- Python `min` over two values (strict comparison keeps the first on
ties, as Python's `min` does). -/
def PRat.pymin (a b : PRat) : PRat := if PRat.blt b a then b else a

def PRat.pymax (a b : PRat) : PRat := if PRat.blt a b then b else a

/-- Half-to-even integer rounding of `m / d` for `0 < d`, expressed with
Euclidean division so that it is kernel-computable.  This is the rounding
used by Python's `round`. -/
def rheDiv (m d : Int) : Int :=
  let q := m / d
  let r := m % d
  if 2 * r < d then q
  else if d < 2 * r then q + 1
  else if q % 2 == 0 then q else q + 1

/-- Embeds Python `round(x, 2)` (round half to even at two decimal
places, on the exact rational model of the float). -/
def PRat.round2 (a : PRat) : PRat := ⟨rheDiv (100 * a.num) a.den, 100⟩

/-- Rational-level half-to-even rounding to an integer. -/
def rheQ (x : ℚ) : ℤ :=
  if Int.fract x < 1 / 2 then ⌊x⌋
  else if (1 : ℚ) / 2 < Int.fract x then ⌊x⌋ + 1
  else if ⌊x⌋ % 2 = 0 then ⌊x⌋ else ⌊x⌋ + 1

/-- Rational-level Python `round(x, 2)`. -/
def qround2 (x : ℚ) : ℚ := (rheQ (100 * x) : ℚ) / 100

/-! ### Bridge lemmas between `PRat` and `ℚ` -/

theorem PRat.toRat_pyInt (n : Int) : (pyInt n).toRat = (n : ℚ) := by
  simp [pyInt, PRat.toRat]

theorem PRat.WF_add {a b : PRat} (ha : a.WF) (hb : b.WF) : (a.add b).WF :=
  mul_pos ha hb

theorem PRat.WF_sub {a b : PRat} (ha : a.WF) (hb : b.WF) : (a.sub b).WF :=
  mul_pos ha hb

theorem PRat.WF_mul {a b : PRat} (ha : a.WF) (hb : b.WF) : (a.mul b).WF :=
  mul_pos ha hb

theorem PRat.toRat_add {a b : PRat} (ha : a.WF) (hb : b.WF) :
    (a.add b).toRat = a.toRat + b.toRat := by
  have ha' : (a.den : ℚ) ≠ 0 := by exact_mod_cast ha.ne'
  have hb' : (b.den : ℚ) ≠ 0 := by exact_mod_cast hb.ne'
  simp only [PRat.add, PRat.toRat]
  push_cast
  field_simp
  try ring

theorem PRat.toRat_sub {a b : PRat} (ha : a.WF) (hb : b.WF) :
    (a.sub b).toRat = a.toRat - b.toRat := by
  have ha' : (a.den : ℚ) ≠ 0 := by exact_mod_cast ha.ne'
  have hb' : (b.den : ℚ) ≠ 0 := by exact_mod_cast hb.ne'
  simp only [PRat.sub, PRat.toRat]
  push_cast
  field_simp
  try ring

theorem PRat.toRat_mul {a b : PRat} (ha : a.WF) (hb : b.WF) :
    (a.mul b).toRat = a.toRat * b.toRat := by
  have ha' : (a.den : ℚ) ≠ 0 := by exact_mod_cast ha.ne'
  have hb' : (b.den : ℚ) ≠ 0 := by exact_mod_cast hb.ne'
  simp only [PRat.mul, PRat.toRat]
  push_cast
  field_simp

theorem PRat.toRat_div {a b : PRat} (ha : a.WF) (hb : b.WF) (hb0 : b.toRat ≠ 0) :
    (a.div b).toRat = a.toRat / b.toRat := by
  have ha' : (a.den : ℚ) ≠ 0 := by exact_mod_cast ha.ne'
  have hb' : (b.den : ℚ) ≠ 0 := by exact_mod_cast hb.ne'
  have hbn : (b.num : ℚ) ≠ 0 := by
    intro h
    apply hb0
    simp [PRat.toRat, h]
  simp only [PRat.div]
  split
  · simp only [PRat.toRat]
    push_cast
    field_simp
    try ring
  · simp only [PRat.toRat]
    push_cast
    field_simp
    try ring

theorem PRat.WF_div {a b : PRat} (ha : a.WF) (hb0 : b.num ≠ 0) : (a.div b).WF := by
  simp only [PRat.div, PRat.WF]
  have hne : a.den * b.num ≠ 0 := mul_ne_zero ha.ne' hb0
  by_cases h : a.den * b.num < 0
  · simp only [h, if_true]
    omega
  · simp only [h, if_false]
    omega

theorem PRat.ble_iff {a b : PRat} (ha : a.WF) (hb : b.WF) :
    a.ble b = true ↔ a.toRat ≤ b.toRat := by
  have ha' : (0 : ℚ) < (a.den : ℚ) := by exact_mod_cast ha
  have hb' : (0 : ℚ) < (b.den : ℚ) := by exact_mod_cast hb
  simp only [PRat.ble, PRat.toRat, decide_eq_true_eq]
  rw [div_le_div_iff ha' hb']
  constructor
  · intro h
    exact_mod_cast h
  · intro h
    exact_mod_cast h

theorem PRat.blt_iff {a b : PRat} (ha : a.WF) (hb : b.WF) :
    a.blt b = true ↔ a.toRat < b.toRat := by
  have ha' : (0 : ℚ) < (a.den : ℚ) := by exact_mod_cast ha
  have hb' : (0 : ℚ) < (b.den : ℚ) := by exact_mod_cast hb
  simp only [PRat.blt, PRat.toRat, decide_eq_true_eq]
  rw [div_lt_div_iff ha' hb']
  constructor
  · intro h
    exact_mod_cast h
  · intro h
    exact_mod_cast h

theorem PRat.beq_iff {a b : PRat} (ha : a.WF) (hb : b.WF) :
    a.beq b = true ↔ a.toRat = b.toRat := by
  have ha' : (a.den : ℚ) ≠ 0 := by exact_mod_cast ha.ne'
  have hb' : (b.den : ℚ) ≠ 0 := by exact_mod_cast hb.ne'
  simp only [PRat.beq, PRat.toRat, beq_iff_eq]
  rw [div_eq_div_iff ha' hb']
  constructor
  · intro h
    exact_mod_cast h
  · intro h
    exact_mod_cast h

theorem rheDiv_eq_rheQ (m d : Int) (hd : 0 < d) :
    rheDiv m d = rheQ ((m : ℚ) / (d : ℚ)) := by
  have hdq : (0 : ℚ) < (d : ℚ) := by exact_mod_cast hd
  have hdt : ((d.toNat : ℤ) : ℚ) = (d : ℚ) := by
    rw [Int.toNat_of_nonneg hd.le]
  have hfloor : ⌊(m : ℚ) / (d : ℚ)⌋ = m / d := by
    rw [← hdt]
    rw [show ((d.toNat : ℤ) : ℚ) = ((d.toNat : ℕ) : ℚ) by push_cast; ring]
    rw [Rat.floor_intCast_div_natCast]
    rw [Int.toNat_of_nonneg hd.le]
  have hfract : Int.fract ((m : ℚ) / (d : ℚ)) = ((m % d : ℤ) : ℚ) / (d : ℚ) := by
    rw [Int.fract, hfloor]
    have : m % d = m - d * (m / d) := by
      have := Int.emod_add_ediv m d
      omega
    rw [this]
    push_cast
    field_simp
    try ring
  have hr0 : (0 : ℤ) ≤ m % d := Int.emod_nonneg m hd.ne'
  have h1 : ((m % d : ℤ) : ℚ) / (d : ℚ) < 1 / 2 ↔ 2 * (m % d) < d := by
    rw [div_lt_div_iff hdq (by norm_num : (0:ℚ) < 2)]
    rw [show ((m % d : ℤ) : ℚ) * 2 = ((2 * (m % d) : ℤ) : ℚ) by push_cast; ring]
    rw [show (1 : ℚ) * (d : ℚ) = ((d : ℤ) : ℚ) by push_cast; ring]
    exact_mod_cast Iff.rfl
  have h2 : (1 : ℚ) / 2 < ((m % d : ℤ) : ℚ) / (d : ℚ) ↔ d < 2 * (m % d) := by
    rw [div_lt_div_iff (by norm_num : (0:ℚ) < 2) hdq]
    rw [show ((m % d : ℤ) : ℚ) * 2 = ((2 * (m % d) : ℤ) : ℚ) by push_cast; ring]
    rw [show (1 : ℚ) * (d : ℚ) = ((d : ℤ) : ℚ) by push_cast; ring]
    exact_mod_cast Iff.rfl
  have h3 : ((m / d % 2 == 0) = true) ↔ m / d % 2 = 0 := by
    simp
  simp only [rheDiv, rheQ, hfract, hfloor, h1, h2, h3]

theorem PRat.toRat_round2 {a : PRat} (ha : a.WF) :
    (a.round2).toRat = qround2 a.toRat := by
  simp only [PRat.round2, PRat.toRat, qround2]
  rw [rheDiv_eq_rheQ _ _ ha]
  congr 2
  push_cast
  rw [mul_div_assoc]

theorem PRat.WF_round2 (a : PRat) : (a.round2).WF := by
  simp [PRat.round2, PRat.WF]

theorem qround2_intCast (n : ℤ) : qround2 (n : ℚ) = (n : ℚ) := by
  have h100 : (100 * (n : ℚ)) = ((100 * n : ℤ) : ℚ) := by push_cast; ring
  simp only [qround2, rheQ, h100, Int.fract_intCast, Int.floor_intCast]
  norm_num
  try push_cast
  try ring

/-! ## Characters and Python string primitives -/

/-- Python `str.lower()` on one character: ASCII letters plus the Latin
uppercase ranges used by Vietnamese text (Latin-1 Supplement without the
multiplication sign, Latin Extended-A/B and Latin Extended Additional,
where the lowercase letter follows the uppercase one). -/
def pyLower (c : Char) : Char :=
  let v := c.toNat
  if 65 ≤ v && v ≤ 90 then Char.ofNat (v + 32)
  else if 0xC0 ≤ v && v ≤ 0xDE && v != 0xD7 then Char.ofNat (v + 32)
  else if (0x100 ≤ v && v ≤ 0x177 || 0x1E00 ≤ v && v ≤ 0x1EFF) && v % 2 == 0 then
    Char.ofNat (v + 1)
  else c

/-- Lowercasing of a Python string (`str.lower()`). -/
def strLower (l : List Char) : List Char := l.map pyLower

/-- ASCII whitespace, the whitespace recognised by Python's `\s` and
`str.split()`/`str.strip()` on this data. -/
def isSpaceChar (c : Char) : Bool :=
  c == ' ' || c == '\t' || c == '\n' || c == '\r' || c == '\x0b' || c == '\x0c'

/-- Python regex `\w` (and `str.isalnum`-based word characters),
restricted to ASCII alphanumerics, underscore, the superscript-two sign
and the Latin letter ranges used by Vietnamese text. -/
def isWordChar (c : Char) : Bool :=
  c.isAlphanum || c == '_' || c.toNat == 0xB2 ||
  (0xC0 ≤ c.toNat && c.toNat ≤ 0x1FF && c.toNat != 0xD7 && c.toNat != 0xF7) ||
  (0x1E00 ≤ c.toNat && c.toNat ≤ 0x1EFF)

/-- Helper for `splitWs`: accumulates the current word reversed. -/
def splitWsAux : List Char → List Char → List (List Char)
  | [], acc => if acc.isEmpty then [] else [acc.reverse]
  | c :: rest, acc =>
    if isSpaceChar c then
      if acc.isEmpty then splitWsAux rest [] else acc.reverse :: splitWsAux rest []
    else splitWsAux rest (c :: acc)

/-- Python `str.split()` (split on whitespace runs, dropping empties). -/
def splitWs (l : List Char) : List (List Char) := splitWsAux l []

/-- Python `str.strip()`. -/
def stripWs (l : List Char) : List Char :=
  ((l.dropWhile isSpaceChar).reverse.dropWhile isSpaceChar).reverse

/-- Python single-character `str.replace(old, new)`. -/
def replaceChar (old new : Char) (l : List Char) : List Char :=
  l.map (fun c => if c == old then new else c)

/-- Python `str.replace(old, '')` for a single character. -/
def removeChar (old : Char) (l : List Char) : List Char :=
  l.filter (fun c => c != old)

/-- Python substring-replacement `str.replace(pat, repl)` for a
non-empty pattern (fuelled scan from the left). -/
def replaceSub (pat repl : List Char) : Nat → List Char → List Char
  | 0, l => l
  | _ + 1, [] => []
  | fuel + 1, c :: rest =>
    if pat.isPrefixOf (c :: rest) then
      repl ++ replaceSub pat repl fuel ((c :: rest).drop pat.length)
    else
      c :: replaceSub pat repl fuel rest

/-- Python `sub in s` substring containment. -/
def containsSub (sub : List Char) : List Char → Bool
  | [] => sub.isEmpty
  | c :: rest => sub.isPrefixOf (c :: rest) || containsSub sub rest

/-- Python `' '.join` of word lists. -/
def joinSpace : List (List Char) → List Char
  | [] => []
  | [w] => w
  | w :: ws => w ++ ' ' :: joinSpace ws

/-! ## A backtracking regex engine for CPython `re` semantics -/

/-- Character classes appearing in the source regexes. -/
inductive CC where
  | anyc
  | digit
  | word
  | nword
  | space
  | nspace
  | lit (c : Char)
  | oneOf (cs : List Char)
  | noneOf (cs : List Char)
  | lowerAlnumSlash

/-- Membership of a character in a class, as CPython `re` decides it
(restricted to the character ranges appearing in this data). -/
def ccMem (cc : CC) (c : Char) : Bool :=
  match cc with
  | .anyc => c != '\n'
  | .digit => c.isDigit
  | .word => isWordChar c
  | .nword => !isWordChar c
  | .space => isSpaceChar c
  | .nspace => !isSpaceChar c
  | .lit d => c == d
  | .oneOf cs => cs.contains c
  | .noneOf cs => !cs.contains c
  | .lowerAlnumSlash => ('a' ≤ c && c ≤ 'z') || c.isDigit || c == '/'

/-- Regex abstract syntax: epsilon, character class, concatenation,
alternation, bounded/unbounded greedy or lazy repetition, capturing
group, word boundary and negative lookahead — the constructs used by the
patterns of this repository. -/
inductive RE where
  | eps
  | cls (cc : CC)
  | cat (a b : RE)
  | alt (a b : RE)
  | rep (lo : Nat) (hi : Option Nat) (lazy : Bool) (r : RE)
  | grp (n : Nat) (r : RE)
  | wb
  | nla (r : RE)

/-- Regex matching a literal string. -/
def strRE (s : String) : RE :=
  (s.data.map (fun c => RE.cls (.lit c))).foldr RE.cat .eps

/-- First-branch-first alternation of a list of regexes. -/
def alts : List RE → RE
  | [] => .eps
  | [r] => r
  | r :: rs => .alt r (alts rs)

/-- Sequence of regexes. -/
def seq (rs : List RE) : RE := rs.foldr RE.cat .eps

/-- Greedy `r?`. -/
def opt (r : RE) : RE := .rep 0 (some 1) false r

/-- Greedy `r*`. -/
def star (r : RE) : RE := .rep 0 none false r

/-- Greedy `r+`. -/
def plus (r : RE) : RE := .rep 1 none false r

/-- Greedy bounded repetition. -/
def reps (lo hi : Nat) (r : RE) : RE := .rep lo (some hi) false r

/-- Regex `\s+`. -/
def ws1 : RE := plus (.cls .space)

/-- Regex `\s*`. -/
def ws0 : RE := star (.cls .space)

/-- Capture list: entries `(group, start, stop)`, most recent first. -/
abbrev Caps := List (Nat × Nat × Nat)

/-- Backtracking matcher in continuation-passing style, mirroring
CPython's backtracking `re` semantics: alternation tries the left branch
first, greedy repetition tries longer first, lazy repetition shorter
first; a repetition stops as soon as its body matches the empty string.
Fuel bounds the recursion depth. -/
def mtch (s : List Char) (n : Nat) : Nat → RE → Nat → Caps →
    (Nat → Caps → Option (Nat × Caps)) → Option (Nat × Caps)
  | 0, _, _, _, _ => none
  | fuel + 1, r, pos, caps, k =>
    match r with
    | .eps => k pos caps
    | .cls cc =>
      match s.drop pos with
      | [] => none
      | c :: _ => if ccMem cc c then k (pos + 1) caps else none
    | .cat a b => mtch s n fuel a pos caps (fun p cp => mtch s n fuel b p cp k)
    | .alt a b =>
      match mtch s n fuel a pos caps k with
      | some res => some res
      | none => mtch s n fuel b pos caps k
    | .grp g r => mtch s n fuel r pos caps (fun p cp => k p ((g, pos, p) :: cp))
    | .wb =>
      let wl := pos > 0 && isWordChar ((s.drop (pos - 1)).headD ' ')
      let wr := pos < n && isWordChar ((s.drop pos).headD ' ')
      if wl != wr then k pos caps else none
    | .nla r =>
      match mtch s n fuel r pos caps (fun p cp => some (p, cp)) with
      | some _ => none
      | none => k pos caps
    | .rep lo hi lazy r =>
      match lo, hi with
      | lo' + 1, _ =>
        mtch s n fuel r pos caps (fun p cp =>
          mtch s n fuel (.rep lo' (hi.map (· - 1)) lazy r) p cp k)
      | 0, some 0 => k pos caps
      | 0, _ =>
        if lazy then
          match k pos caps with
          | some res => some res
          | none =>
            mtch s n fuel r pos caps (fun p cp =>
              if p == pos then none
              else mtch s n fuel (.rep 0 (hi.map (· - 1)) lazy r) p cp k)
        else
          match mtch s n fuel r pos caps (fun p cp =>
              if p == pos then k p cp
              else mtch s n fuel (.rep 0 (hi.map (· - 1)) lazy r) p cp k) with
          | some res => some res
          | none => k pos caps

/-- One attempt to match `r` starting exactly at position `pos`. -/
def matchAt (r : RE) (s : List Char) (pos : Nat) : Option (Nat × Caps) :=
  let n := s.length
  mtch s n (1000 * (n + 100)) r pos [] (fun p cp => some (p, cp))

/-- Scan of start positions for `re.search`, leftmost first. -/
def reSearchFrom (r : RE) (s : List Char) : Nat → Nat → Option (Nat × Nat × Caps)
  | 0, _ => none
  | tries + 1, i =>
    match matchAt r s i with
    | some (e, cp) => some (i, e, cp)
    | none => reSearchFrom r s tries (i + 1)

/-- Embeds `re.search(r, s)`: the leftmost match as
`(start, stop, captures)`. -/
def reSearch (r : RE) (s : List Char) : Option (Nat × Nat × Caps) :=
  reSearchFrom r s (s.length + 1) 0

/-- Embeds the truth value of `re.search(r, s)`. -/
def reTest (r : RE) (s : List Char) : Bool :=
  (reSearch r s).isSome

/-- Substring of `s` from `i` (inclusive) to `e` (exclusive). -/
def spanOf (s : List Char) (i e : Nat) : List Char :=
  (s.drop i).take (e - i)

/-- The text matched by capture group `g` (empty when the group did not
participate, as `re.findall` reports it). -/
def groupStr (s : List Char) (caps : Caps) (g : Nat) : List Char :=
  match caps.find? (fun t => t.1 == g) with
  | some (_, a, b) => spanOf s a b
  | none => []

/-- Embeds `re.findall`: non-overlapping matches scanned from the left;
after a match the scan resumes at its end (one past it for an empty
match). -/
def reFindAllFrom (r : RE) (s : List Char) : Nat → Nat → List (Nat × Nat × Caps)
  | 0, _ => []
  | fuel + 1, i =>
    if i > s.length then []
    else
      match reSearchFrom r s (s.length + 1 - i) i with
      | none => []
      | some (j, e, cp) =>
        (j, e, cp) :: reFindAllFrom r s fuel (if e > j then e else j + 1)

def reFindAll (r : RE) (s : List Char) : List (Nat × Nat × Caps) :=
  reFindAllFrom r s (s.length + 2) 0

/-! ## Longest common subsequence and `rapidfuzz` ratio -/

/-- One row update of the LCS dynamic program. -/
def lcsRowGo (c : Char) : List Char → List Nat → Nat → Nat → List Nat
  | b :: bs, pl :: prev, diag, left =>
    let cur := if b == c then diag + 1 else max left pl
    cur :: lcsRowGo c bs prev pl cur
  | _, _, _, _ => []

def lcsRow (c : Char) (bs : List Char) (prev : List Nat) : List Nat :=
  0 :: lcsRowGo c bs (prev.drop 1) (prev.headD 0) 0

/-- Length of a longest common subsequence. -/
def lcsLen (as bs : List Char) : Nat :=
  (as.foldl (fun prev c => lcsRow c bs prev) (List.replicate (bs.length + 1) 0)).getLastD 0

/-- `rapidfuzz.fuzz.ratio`, modelled exactly: the normalised indel
similarity `200·LCS(a,b) / (|a|+|b|)` as a rational (100 for two empty
strings); the Python float value is the same number up to floating-point
rounding. -/
def fuzzRatio (a b : List Char) : ℚ :=
  if a.length + b.length = 0 then 100
  else (200 * lcsLen a b : ℚ) / (a.length + b.length)

/-- Kernel-computable embedding of the comparison
`fuzz.ratio(a, b) >= t` (exact arithmetic, no division). -/
def fuzzGe (a b : List Char) (t : Nat) : Bool :=
  if a.length + b.length = 0 then t ≤ 100
  else t * (a.length + b.length) ≤ 200 * lcsLen a b

theorem fuzzGe_iff (a b : List Char) (t : Nat) :
    fuzzGe a b t = true ↔ (t : ℚ) ≤ fuzzRatio a b := by
  simp only [fuzzGe, fuzzRatio]
  by_cases h : a.length + b.length = 0
  · rw [if_pos h, if_pos h]
    simp only [decide_eq_true_eq]
    exact_mod_cast Iff.rfl
  · rw [if_neg h, if_neg h]
    simp only [decide_eq_true_eq]
    have hpos : (0 : ℚ) < (a.length : ℚ) + (b.length : ℚ) := by
      have := Nat.pos_of_ne_zero h
      push_cast
      exact_mod_cast this
    rw [le_div_iff hpos]
    constructor
    · intro hle
      push_cast
      exact_mod_cast hle
    · intro hle
      have : ((t : ℚ)) * ((a.length : ℚ) + (b.length : ℚ)) ≤ 200 * (lcsLen a b : ℚ) := hle
      exact_mod_cast this

/-! ## Numeric token parsing (`cleaning.py` number helpers) -/

/-- Characters of the class `[\d\.,]`. -/
def isNumTokChar (c : Char) : Bool := c.isDigit || c == '.' || c == ','

/-- Embeds `re.search(r"([\d\.,]+)", s)`: the leftmost maximal run of
digit, dot or comma characters (the regex is a single greedy class
repetition, so leftmost-longest coincides with CPython's semantics). -/
def firstNumToken : List Char → Option (List Char)
  | [] => none
  | c :: rest =>
    if isNumTokChar c then some (c :: rest.takeWhile isNumTokChar)
    else firstNumToken rest

/-- Numeric value of an ASCII digit string. -/
def natOfDigits (l : List Char) : Nat :=
  l.foldl (fun a c => 10 * a + (c.toNat - 48)) 0

/-- Embeds Python `float(s)` on the strings produced by the numeric
token parsers: an optional sign, digits, and at most one dot.  Other
forms accepted by Python (`inf`, exponents, underscores) cannot reach
these call sites because the tokens pass through the `[\d\.,]` class
first.  Returns `none` where Python raises `ValueError`.
`floatSign` strips the optional leading sign. -/
def floatSign : List Char → Int × List Char
  | '-' :: r => (-1, r)
  | '+' :: r => (1, r)
  | l => (1, l)

def floatParse (l : List Char) : Option PRat :=
  let sgn := (floatSign l).1
  let body := (floatSign l).2
  let d1 := body.takeWhile Char.isDigit
  let rest := body.dropWhile Char.isDigit
  match rest with
  | [] => if d1.isEmpty then none else some ⟨sgn * natOfDigits d1, 1⟩
  | '.' :: r2 =>
    let d2 := r2.takeWhile Char.isDigit
    let r3 := r2.dropWhile Char.isDigit
    if r3.isEmpty && !(d1.isEmpty && d2.isEmpty) then
      some ⟨sgn * (natOfDigits d1 * 10 ^ d2.length + natOfDigits d2), (10 : Int) ^ d2.length⟩
    else none
  | _ => none

/-- Embeds the `is_float` helper of `extract_num_floors` (Python
`float(x)` succeeding). -/
def pyIsFloat (l : List Char) : Bool := (floatParse l).isSome

/-- Embeds Python `int(s)` (used on the `Số tầng` token): optional
whitespace and sign around a non-empty digit string; `none` models
`ValueError`. -/
def intParse (l : List Char) : Option Int :=
  let t := stripWs l
  let sb : Int × List Char :=
    match t with
    | '-' :: r => (-1, r)
    | '+' :: r => (1, r)
    | _ => (1, t)
  if sb.2.isEmpty || !(sb.2.all Char.isDigit) then none
  else some (sb.1 * natOfDigits sb.2)

/-- Embeds `parse_and_clean_width` (`cleaning.py`): find the first
numeric token; if it has a comma, drop dots and read the comma as a
decimal point; if the resulting value exceeds 20, reparse the token with
commas removed; round to two decimals.  `none` input models any
non-string Python value. -/
def parse_and_clean_width : Option (List Char) → Option PRat
  | none => none
  | some tv =>
    match firstNumToken tv with
    | none => none
    | some numStr =>
      let cleaned :=
        if numStr.contains ',' then replaceChar ',' '.' (removeChar '.' numStr)
        else numStr
      match floatParse cleaned with
      | none => none
      | some value =>
        if PRat.blt (pyInt 20) value then
          match floatParse (removeChar ',' numStr) with
          | none => none
          | some v2 => some v2.round2
        else some value.round2

/-- Embeds `DataCleaner._parse_and_clean_number`: first numeric token,
dots removed as thousands separators, comma read as decimal point,
rounded to two decimals. -/
def parseCleanNumber : Option (List Char) → Option PRat
  | none => none
  | some tv =>
    match firstNumToken tv with
    | none => none
    | some numStr =>
      match floatParse (replaceChar ',' '.' (removeChar '.' numStr)) with
      | none => none
      | some v => some v.round2

/-! ## Python values, rows and errors -/

/-- Decidable equality for `Except` results (for `decide`-evaluated
runs of the embedded extractors). -/
instance {ε α : Type} [DecidableEq ε] [DecidableEq α] : DecidableEq (Except ε α) := fun a b =>
  match a, b with
  | .ok x, .ok y =>
    match decEq x y with
    | isTrue h => isTrue (h ▸ rfl)
    | isFalse h => isFalse (fun c => h (by cases c; rfl))
  | .ok _, .error _ => isFalse (fun c => by cases c)
  | .error _, .ok _ => isFalse (fun c => by cases c)
  | .error e, .error f =>
    match decEq e f with
    | isTrue h => isTrue (h ▸ rfl)
    | isFalse h => isFalse (fun c => h (by cases c; rfl))

/-- Modelled Python exceptions. -/
inductive PyErr where
  | keyError
  | attributeError
  | valueError
  | typeError
  | jsonDecodeError
  | nameError
  | indexError
deriving DecidableEq

/-- A raw-listing text field as the extractors see it: the key can be
missing from the row dict, present as a pandas `NaN`, or a string. -/
inductive PyStr where
  | absent
  | nanv
  | strv (s : List Char)

/-- Embeds `f"{row.get(k, dflt)}"`: the string default when the key is
absent, `str(nan) = "nan"` for a missing pandas value, the string
itself otherwise. -/
def PyStr.getS (f : PyStr) (dflt : List Char) : List Char :=
  match f with
  | .absent => dflt
  | .nanv => 'n' :: 'a' :: 'n' :: []
  | .strv s => s

/-- Embeds `str(row.get(k))` (no default): `str(None) = "None"`. -/
def PyStr.getStr (f : PyStr) : List Char :=
  match f with
  | .absent => 'N' :: 'o' :: 'n' :: 'e' :: []
  | .nanv => 'n' :: 'a' :: 'n' :: []
  | .strv s => s

/-- Embeds `pd.notna(row.get(k))`. -/
def PyStr.notna : PyStr → Bool
  | .strv _ => true
  | _ => false

/-- The `other_info` field: the scraping layer stores a JSON/text string
(or the value is missing), while one extractor accesses it as an
already-parsed dict of string fields; both shapes are represented. -/
inductive PyObj where
  | absent
  | nanv
  | strv (s : List Char)
  | dictv (d : List (List Char × List Char))

/-- A raw listing row, with exactly the fields the embedded extractors
read.  Absent constructors model keys missing from the row dict. -/
structure Row where
  title : PyStr
  description : PyStr
  other_info : PyObj
  main_info : PyStr
  is_land : Bool

/-- Lookup in a parsed dict (`dict.get`): first binding of the key. -/
def dictGet (d : List (List Char × List Char)) (k : List Char) : Option (List Char) :=
  (d.find? (fun p => p.1 == k)).map Prod.snd

/-! ## Minimal JSON reader (`json.loads` on the shapes in this data) -/

/-- JSON values of the shapes stored by the scraper: strings, flat
objects, arrays, null. -/
inductive JVal where
  | jstr (s : List Char)
  | jobj (fs : List (List Char × JVal))
  | jarr (xs : List JVal)
  | jnull

def jskipWs (l : List Char) : List Char := l.dropWhile isSpaceChar

/-- String body after an opening quote: content and remainder after the
closing quote, handling backslash escapes of quote and backslash. -/
def jparseStr : List Char → Option (List Char × List Char)
  | [] => none
  | '"' :: rest => some ([], rest)
  | '\\' :: c :: rest =>
    (jparseStr rest).map (fun p => (c :: p.1, p.2))
  | c :: rest =>
    (jparseStr rest).map (fun p => (c :: p.1, p.2))

mutual

def jparseVal : Nat → List Char → Option (JVal × List Char)
  | 0, _ => none
  | fuel + 1, l =>
    match jskipWs l with
    | '"' :: rest => (jparseStr rest).map (fun p => (.jstr p.1, p.2))
    | '\x7b' :: rest => jparseObj fuel (jskipWs rest)
    | '[' :: rest => jparseArr fuel (jskipWs rest)
    | 'n' :: 'u' :: 'l' :: 'l' :: rest => some (.jnull, rest)
    | _ => none

def jparseObj : Nat → List Char → Option (JVal × List Char)
  | 0, _ => none
  | fuel + 1, l =>
    match l with
    | '\x7d' :: rest => some (.jobj [], rest)
    | '"' :: rest =>
      match jparseStr rest with
      | none => none
      | some (key, r1) =>
        match jskipWs r1 with
        | ':' :: r2 =>
          match jparseVal fuel r2 with
          | none => none
          | some (v, r3) =>
            match jskipWs r3 with
            | ',' :: r4 =>
              match jparseObj fuel (jskipWs r4) with
              | some (.jobj fs, r5) => some (.jobj ((key, v) :: fs), r5)
              | _ => none
            | '\x7d' :: r4 => some (.jobj [(key, v)], r4)
            | _ => none
        | _ => none
    | _ => none

def jparseArr : Nat → List Char → Option (JVal × List Char)
  | 0, _ => none
  | fuel + 1, l =>
    match l with
    | ']' :: rest => some (.jarr [], rest)
    | l' =>
      match jparseVal fuel l' with
      | none => none
      | some (v, r1) =>
        match jskipWs r1 with
        | ',' :: r2 =>
          match jparseArr fuel (jskipWs r2) with
          | some (.jarr xs, r3) => some (.jarr (v :: xs), r3)
          | _ => none
        | ']' :: r2 => some (.jarr [v], r2)
        | _ => none

end

/-- Embeds `json.loads` on a field value: parse failure is
`JSONDecodeError`, a non-string argument raises `TypeError`. -/
def jsonLoads (v : PyStr) : Except PyErr JVal :=
  match v with
  | .strv s =>
    match jparseVal (s.length + 1) s with
    | some (j, rest) =>
      if (jskipWs rest).isEmpty then .ok j else .error .jsonDecodeError
    | none => .error .jsonDecodeError
  | .nanv => .error .typeError
  | .absent => .error .typeError

/-- JSON-object lookup, `obj.get(k)`. -/
def jobjGet (fs : List (List Char × JVal)) (k : List Char) : Option JVal :=
  (fs.find? (fun p => p.1 == k)).map Prod.snd

/-- The string carried by a JSON value when it is one (for
`isinstance(v, str)` guards). -/
def JVal.asStr : JVal → Option (List Char)
  | .jstr s => some s
  | _ => none

/-! ## `is_on_main_road` (`cleaning.py` lines 51–89) -/

/-- Regex `\d{1,100}`. -/
def dig100 : RE := reps 1 100 (.cls .digit)

/-- Source regex `(cách|ra|gần|view|hướng\s+ra|đi\s+ra|đi\s+ra\s+đến)\s+(mặt\s+(phố|đường|tiền))`. -/
def nearPat1 : RE :=
  seq [.grp 1 (alts [strRE "cách", strRE "ra", strRE "gần", strRE "view",
          seq [strRE "hướng", ws1, strRE "ra"],
          seq [strRE "đi", ws1, strRE "ra"],
          seq [strRE "đi", ws1, strRE "ra", ws1, strRE "đến"]]),
       ws1,
       .grp 2 (seq [strRE "mặt", ws1, .grp 3 (alts [strRE "phố", strRE "đường", strRE "tiền"])])]

/-- Source regex `(view|hướng\s+ra)\s+(phố|đường|mặt\s+phố)`. -/
def nearPat2 : RE :=
  seq [.grp 1 (alts [strRE "view", seq [strRE "hướng", ws1, strRE "ra"]]), ws1,
       .grp 2 (alts [strRE "phố", strRE "đường", seq [strRE "mặt", ws1, strRE "phố"]])]

/-- Source regex `\b\d{1,100}\s*m(?:ét)?\s*(tới|ra|cách)\s+(mặt\s+(phố|đường|tiền))`. -/
def nearPat3 : RE :=
  seq [.wb, dig100, ws0, strRE "m", opt (strRE "ét"), ws0,
       .grp 1 (alts [strRE "tới", strRE "ra", strRE "cách"]), ws1,
       .grp 2 (seq [strRE "mặt", ws1, .grp 3 (alts [strRE "phố", strRE "đường", strRE "tiền"])])]

/-- Source regex `\bkhoảng\s*\d{1,100}\s*m\s*(đến|ra|tới|cách)\s+(mặt\s+(phố|đường|tiền))`. -/
def nearPat4 : RE :=
  seq [.wb, strRE "khoảng", ws0, dig100, ws0, strRE "m", ws0,
       .grp 1 (alts [strRE "đến", strRE "ra", strRE "tới", strRE "cách"]), ws1,
       .grp 2 (seq [strRE "mặt", ws1, .grp 3 (alts [strRE "phố", strRE "đường", strRE "tiền"])])]

/-- Source regex `(gần|kế|bên cạnh|kề)\s+(phố|đường|mặt\s+phố|mặt\s+tiền)`. -/
def nearPat5 : RE :=
  seq [.grp 1 (alts [strRE "gần", strRE "kế", strRE "bên cạnh", strRE "kề"]), ws1,
       .grp 2 (alts [strRE "phố", strRE "đường",
          seq [strRE "mặt", ws1, strRE "phố"], seq [strRE "mặt", ws1, strRE "tiền"]])]

/-- Source regex `(cách|ra|gần|view|hướng\s+ra|đi\s+ra|đi\s+ra\s+đến)\s+(phố|đường|tiền)`. -/
def nearPat6 : RE :=
  seq [.grp 1 (alts [strRE "cách", strRE "ra", strRE "gần", strRE "view",
          seq [strRE "hướng", ws1, strRE "ra"],
          seq [strRE "đi", ws1, strRE "ra"],
          seq [strRE "đi", ws1, strRE "ra", ws1, strRE "đến"]]),
       ws1, .grp 2 (alts [strRE "phố", strRE "đường", strRE "tiền"])]

/-- Source regex `(view|hướng\s+ra)\s+(phố|đường)`. -/
def nearPat7 : RE :=
  seq [.grp 1 (alts [strRE "view", seq [strRE "hướng", ws1, strRE "ra"]]), ws1,
       .grp 2 (alts [strRE "phố", strRE "đường"])]

/-- Source regex `\b\d{1,100}\s*m(?:ét)?\s*(đến|tới|ra|cách)\s+(phố|đường|tiền)`. -/
def nearPat8 : RE :=
  seq [.wb, dig100, ws0, strRE "m", opt (strRE "ét"), ws0,
       .grp 1 (alts [strRE "đến", strRE "tới", strRE "ra", strRE "cách"]), ws1,
       .grp 2 (alts [strRE "phố", strRE "đường", strRE "tiền"])]

/-- Source regex `\bkhoảng\s*\d{1,100}\s*m\s*(đến|ra|tới|cách)\s+(phố|đường|tiền)`. -/
def nearPat9 : RE :=
  seq [.wb, strRE "khoảng", ws0, dig100, ws0, strRE "m", ws0,
       .grp 1 (alts [strRE "đến", strRE "ra", strRE "tới", strRE "cách"]), ws1,
       .grp 2 (alts [strRE "phố", strRE "đường", strRE "tiền"])]

/-- Source regex `(gần|kế|bên cạnh)\s+(phố|đường)`. -/
def nearPat10 : RE :=
  seq [.grp 1 (alts [strRE "gần", strRE "kế", strRE "bên cạnh"]), ws1,
       .grp 2 (alts [strRE "phố", strRE "đường"])]

/-- Source regex `\b\d{1,100}\s*m\s*(cách|ra|tới|đến)?\s*(phố|đường|tiền)`. -/
def nearPat11 : RE :=
  seq [.wb, dig100, ws0, strRE "m", ws0,
       opt (.grp 1 (alts [strRE "cách", strRE "ra", strRE "tới", strRE "đến"])), ws0,
       .grp 2 (alts [strRE "phố", strRE "đường", strRE "tiền"])]

/-- Source regex `(cách|ra|tới|đến)\s+(phố|đường(?:\s+lớn)?|mặt\s+(phố|đường|tiền))\s*\d{1,100}\s*m(?:ét)?`. -/
def nearPat12 : RE :=
  seq [.grp 1 (alts [strRE "cách", strRE "ra", strRE "tới", strRE "đến"]), ws1,
       .grp 2 (alts [strRE "phố", seq [strRE "đường", opt (seq [ws1, strRE "lớn"])],
          seq [strRE "mặt", ws1, .grp 3 (alts [strRE "phố", strRE "đường", strRE "tiền"])]]),
       ws0, dig100, ws0, strRE "m", opt (strRE "ét")]

/-- The `near_but_not_on_patterns` list, in source order. -/
def nearButNotOn : List RE :=
  [nearPat1, nearPat2, nearPat3, nearPat4, nearPat5, nearPat6,
   nearPat7, nearPat8, nearPat9, nearPat10, nearPat11, nearPat12]

/-- Source regex
`(nhà|biệt thự|căn nhà|lô đất|đất|đất nền|vị trí|nằm|tọa lạc|căn hộ|ở)?\s*(ngay\s+)?(mặt\s+(phố|tiền|đường)|mặt\s+tiền)`. -/
def directPat1 : RE :=
  seq [opt (.grp 1 (alts [strRE "nhà", strRE "biệt thự", strRE "căn nhà", strRE "lô đất",
          strRE "đất", strRE "đất nền", strRE "vị trí", strRE "nằm", strRE "tọa lạc",
          strRE "căn hộ", strRE "ở"])),
       ws0, opt (.grp 2 (seq [strRE "ngay", ws1])),
       .grp 3 (alts [seq [strRE "mặt", ws1, .grp 4 (alts [strRE "phố", strRE "tiền", strRE "đường"])],
          seq [strRE "mặt", ws1, strRE "tiền"]])]

/-- Source regex
`(nhà|biệt thự|căn nhà|vị trí|nằm|tọa lạc|căn hộ|ở)?\s*(ngay\s+)?trên\s+(phố|đường|đường\s+chính|phố\s+lớn)`. -/
def directPat2 : RE :=
  seq [opt (.grp 1 (alts [strRE "nhà", strRE "biệt thự", strRE "căn nhà", strRE "vị trí",
          strRE "nằm", strRE "tọa lạc", strRE "căn hộ", strRE "ở"])),
       ws0, opt (.grp 2 (seq [strRE "ngay", ws1])), strRE "trên", ws1,
       .grp 3 (alts [strRE "phố", strRE "đường",
          seq [strRE "đường", ws1, strRE "chính"], seq [strRE "phố", ws1, strRE "lớn"]])]

/-- Source regex `(nằm|tọa lạc|ở)\s+(trên|tại)\s+trục\s+(đường|phố)\s+(chính|lớn)`. -/
def directPat3 : RE :=
  seq [.grp 1 (alts [strRE "nằm", strRE "tọa lạc", strRE "ở"]), ws1,
       .grp 2 (alts [strRE "trên", strRE "tại"]), ws1, strRE "trục", ws1,
       .grp 3 (alts [strRE "đường", strRE "phố"]), ws1,
       .grp 4 (alts [strRE "chính", strRE "lớn"])]

/-- Source regex `(nhà|biệt thự|căn nhà|căn hộ)\s+phố`. -/
def directPat4 : RE :=
  seq [.grp 1 (alts [strRE "nhà", strRE "biệt thự", strRE "căn nhà", strRE "căn hộ"]), ws1,
       strRE "phố"]

/-- The `direct_main_road_patterns` list, in source order. -/
def directMainRoad : List RE := [directPat1, directPat2, directPat3, directPat4]

/-- Embeds `is_on_main_road` (`cleaning.py`): lowercase the text, return
`False` as soon as a near-but-not-on pattern matches, else `True` when a
direct pattern matches, else `False`. -/
def is_on_main_road (text : List Char) : Bool :=
  let t := strLower text
  if nearButNotOn.any (fun p => reTest p t) then false
  else directMainRoad.any (fun p => reTest p t)

/-- The combined text `f"{row.get('title', '')} {row.get('description', '')}"`
shared by several extractors. -/
def alleyText (row : Row) : List Char :=
  row.title.getS [] ++ ' ' :: row.description.getS []

/-- The lowercased combined title+description text. -/
def rowText (row : Row) : List Char := strLower (alleyText row)

/-! ## `estimate_remaining_quality` (`cleaning.py` lines 882–903) and
`QUALITY_LEVELS` (`config.py` lines 103–137) -/

/-- Quality value `0.0`. -/
def qv0 : PRat := ⟨0, 1⟩

/-- Quality value `1.0`. -/
def qv1 : PRat := ⟨1, 1⟩

/-- Quality value `0.5`. -/
def qv05 : PRat := ⟨1, 2⟩

/-- Quality value `0.85`. -/
def qv085 : PRat := ⟨17, 20⟩

/-- `QUALITY_LEVELS` from `config.py`, in source order.  The seventh
entry of the first list reproduces the source's missing comma, which
concatenates two adjacent string literals into one keyword. -/
def QUALITY_LEVELS : List (PRat × List String) :=
  [(qv0, ["tặng nhà", "bán đất tặng nhà", "chỉ tính tiền đất",
          "đất nền", "nhà tạm", "chủ yếu lấy đất",
          "tặng nhàcó nhà nhưng không đáng giá", "không tính giá trị nhà",
          "nhà cấp 4 cũ", "nhà xuống cấp", "giá trị đất là chính",
          "bán đất", "sắp sập"]),
   (qv1, ["mới xây", "xây mới", "mới xd", "mới hoàn thiện", "mới 100%", "nhà mới",
          "vừa xây xong", "mới bàn giao", "mới nhận nhà", "nhà rất mới",
          "chưa ở lần nào", "nhà mới tinh", "nhà mới toanh",
          "nhà xây mới", "vừa hoàn thiện", "còn thơm mùi sơn",
          "mới hoàn công", "đảm bảo kết cấu mới"]),
   (qv05, ["nhà cũ", "cần sửa chữa", "tiện xây mới",
          "xây lâu năm", "xuống cấp", "cũ nhưng ở tạm được",
          "cũ kỹ", "nhiều năm chưa sửa", "cần cải tạo",
          "nền móng yếu", "cần xây lại",
          "không có giá trị sử dụng"]),
   (qv085, ["nhà đẹp", "còn mới", "giữ gìn", "full nội thất", "thiết kế hiện đại",
          "nhà sạch sẽ", "ở ngay", "ở luôn", "nhà gọn gàng", "nội thất cao cấp",
          "không cần sửa", "đẹp như hình", "vào ở liền",
          "nội thất đầy đủ", "tiện nghi", "không lỗi phong thủy", "không lổi phong thủy",
          "không lỗi phong thuỷ", "không lổi phong thuỷ",
          "còn bảo hành", "nhà chất lượng tốt", "xây kiên cố", "xây chắc chắn"])]

/-- Modelled from the spec: `DEFAULT_QUALITY` is referenced by
`estimate_remaining_quality` but is not defined anywhere under `src/`;
the spec states "Default 0.75 when nothing matches". -/
def DEFAULT_QUALITY : PRat := ⟨3, 4⟩

/-- The gap regex `(?:\s*\w+\s*){0,2}` substituted for each space of a
quality keyword. -/
def qualGap : RE := reps 0 2 (seq [ws0, plus (.cls .word), ws0])

/-- Split at every space character (for the per-space replacement in
the quality patterns). -/
def splitSpAux : List Char → List Char → List (List Char)
  | [], acc => [acc.reverse]
  | ' ' :: rest, acc => acc.reverse :: splitSpAux rest []
  | c :: rest, acc => splitSpAux rest (c :: acc)

def splitSp (l : List Char) : List (List Char) := splitSpAux l []

/-- A literal regex from a character list. -/
def charsRE (l : List Char) : RE :=
  (l.map (fun c => RE.cls (.lit c))).foldr RE.cat .eps

/-- The keyword body after `kw.replace(' ', '(?:\s*\w+\s*){0,2} ')`:
each space becomes the gap regex followed by a literal space. -/
def qualCore : List (List Char) → RE
  | [] => .eps
  | [p] => charsRE p
  | p :: rest => seq [charsRE p, qualGap, strRE " ", qualCore rest]

/-- The compiled pattern `'\W' + kw.replace(...) + '\W'` of
`estimate_remaining_quality`. -/
def qualPattern (kw : String) : RE :=
  seq [.cls .nword, qualCore (splitSp kw.data), .cls .nword]

/-- `fuzz.ratio` as a `PRat` score (see `fuzzRatio`). -/
def fuzzScore (a b : List Char) : PRat :=
  if a.length + b.length = 0 then ⟨100, 1⟩
  else ⟨200 * lcsLen a b, a.length + b.length⟩

/-- Python-dict insertion/overwrite keyed by the quality float:
an existing key keeps its position, a new key is appended. -/
def dictUpd (acc : List (PRat × List Char × PRat)) (k : PRat) (v : List Char × PRat) :
    List (PRat × List Char × PRat) :=
  if acc.any (fun e => PRat.beq e.1 k) then
    acc.map (fun e => if PRat.beq e.1 k then (k, v) else e)
  else acc ++ [(k, v)]

/-- One keyword step of `estimate_remaining_quality`: search the
compiled pattern, score the matched span against the keyword with
`fuzz.ratio`, add the extreme-tier bonus of 3 for quality 0 or 1, store
under the quality value. -/
def erqStep (text : List Char) (qv : PRat) (acc : List (PRat × List Char × PRat))
    (kw : String) : List (PRat × List Char × PRat) :=
  match reSearch (qualPattern kw) text with
  | none => acc
  | some (i, e, _) =>
    let span := spanOf text i e
    let sc := fuzzScore span kw.data
    let sc := if PRat.beq qv (pyInt 0) || PRat.beq qv (pyInt 1) then sc.add (pyInt 3) else sc
    dictUpd acc qv (span, sc)

/-- The `result` dict of `estimate_remaining_quality` after both loops. -/
def erqResult (text : List Char) : List (PRat × List Char × PRat) :=
  QUALITY_LEVELS.foldl (fun acc e => e.2.foldl (fun a kw => erqStep text e.1 a kw) acc) []

/-- The ordering key of `max(result.items(), key=lambda x: (x[1][1], x[0]))`. -/
def erqKeyLt (x y : PRat × List Char × PRat) : Bool :=
  PRat.blt x.2.2 y.2.2 || (PRat.beq x.2.2 y.2.2 && PRat.blt x.1 y.1)

/-- Python `max(l, key=f)`: first maximal element. -/
def pyMaxBy (lt : α → α → Bool) : List α → Option α
  | [] => none
  | x :: xs => some (xs.foldl (fun best y => if lt best y then y else best) x)

/-- Embeds `DataCleaner.estimate_remaining_quality`. -/
def estimate_remaining_quality (row : Row) : PRat :=
  match pyMaxBy erqKeyLt (erqResult (rowText row)) with
  | some e => e.1
  | none => DEFAULT_QUALITY

/-! ## `extract_land_shape` (`cleaning.py` lines 914–928) -/

/-- `SHAPE_KEYWORDS` from `config.py`, in source (insertion) order. -/
def SHAPE_KEYWORDS : List (String × List String) :=
  [("Nở hậu", ["nở hậu", "hậu nở", "đuôi nở", "phía sau nở"]),
   ("Thóp hậu", ["thóp hậu", "tóp hậu", "hậu tóp", "đuôi tóp"]),
   ("Chữ nhật vát góc", ["vát góc", "cắt góc", "bo góc", "xéo góc"]),
   ("Chữ L", ["chữ l", "hình l"]),
   ("Chữ L hẹp ngang", ["chữ l hẹp", "hình l hẹp"]),
   ("Chữ L rộng ngang", ["chữ l rộng", "hình l rộng"]),
   ("Chữ T", ["chữ t", "hình t", "thông ngang"]),
   ("Chữ U", ["chữ u", "hình u", "móng ngựa"]),
   ("Tam giác", ["tam giác"]),
   ("Hình quạt", ["hình quạt", "nan quạt", "xòe quạt"]),
   ("Đa giác từ 5 cạnh, méo mó", ["méo mó", "méo", "móp méo"]),
   ("Phức tạp, nhiều góc nhọn/tù", ["nhiều góc nhọn", "hình dáng phức tạp"]),
   ("Chữ nhật", ["vuông vức", "vuông vắn", "vuông đẹp",
      "vuông như", "hình chữ nhật", "đều chằn chặn", "không lỗi phong thủy"])]

/-- Modelled from the spec: `NEGATION_PATTERNS` is referenced by
`extract_land_shape` but is not defined anywhere under `src/`.  The spec
describes "a configurable set of negation markers — 'không', 'chưa',
etc. — occurring within N tokens before the keyword"; each entry is a
pattern with a slot for the escaped keyword. -/
def NEGATION_PATTERNS : List (String → RE) :=
  [fun kw => seq [strRE "không", ws1, reps 0 2 (seq [plus (.cls .word), ws1]), strRE kw],
   fun kw => seq [strRE "chưa", ws1, reps 0 2 (seq [plus (.cls .word), ws1]), strRE kw]]

/-- The `is_negated` helper of `extract_land_shape`. -/
def shapeIsNegated (text : List Char) (kw : String) : Bool :=
  NEGATION_PATTERNS.any (fun p => reTest (p kw) text)

/-- The word-boundary keyword pattern `rf"\b{re.escape(kw)}\b"`. -/
def wbPattern (kw : String) : RE := seq [.wb, strRE kw, .wb]

/-- Embeds `DataCleaner.extract_land_shape`: first shape (in table
order) with a non-negated keyword match; default "Chữ nhật". -/
def extract_land_shape (row : Row) : String :=
  let text := rowText row
  match SHAPE_KEYWORDS.find? (fun e =>
      e.2.any (fun kw => reTest (wbPattern kw) text && !shapeIsNegated text kw)) with
  | some e => e.1
  | none => "Chữ nhật"

/-! ## `extract_num_floors` (`cleaning.py` lines 529–697) -/

/-- The floor keyword list `['tầng', 'lầu', 'tấm', 'mê']`. -/
def floorKeywords : List String := ["tầng", "lầu", "tấm", "mê"]

/-- The alternative keyword list `['trệt', 'trêt', 'tret']` used by the
`nhà trệt` branches. -/
def tretKeywords : List String := ["trệt", "trêt", "tret"]

/-- `word_to_num` of `extract_num_floors`. -/
def wordToNum : List (String × Nat) :=
  [("một", 1), ("hai", 2), ("ba", 3), ("bốn", 4), ("năm", 5), ("sáu", 6),
   ("bảy", 7), ("bẩy", 7), ("tám", 8), ("chín", 9), ("mười", 10),
   ("mười một", 11), ("mười hai", 12), ("mười ba", 13), ("mười bốn", 14),
   ("mười lăm", 15), ("mười sáu", 16)]

/-- Lookup `word_to_num[w]`. -/
def wtnLookup (w : List Char) : Option Nat :=
  (wordToNum.find? (fun p => p.1.data == w)).map Prod.snd

/-- `additional_floor` (default variant). -/
def addFloorDefault : List String :=
  ["sân thượng", "sân thương", "trêt", "trệt", "tret", "tum", "hầm", "hâm",
   "gác", "gac", "lửng", "lững", "lừng"]

/-- `additional_floor` when `'trệt'` is among the floor keywords. -/
def addFloorTret : List String :=
  ["sân thượng", "sân thương", "tum", "hầm", "hâm", "gác", "gac",
   "lửng", "lững", "lừng"]

/-- Source regex
`giấy phép xây dựng|giấy phép xây|phép xây dựng|gpxd|có thể xây|cải tạo|được phép xây`. -/
def forbiddenRE : RE :=
  alts [strRE "giấy phép xây dựng", strRE "giấy phép xây", strRE "phép xây dựng",
        strRE "gpxd", strRE "có thể xây", strRE "cải tạo", strRE "được phép xây"]

/-- Source regex `(\Wst\W)`. -/
def stRE : RE := .grp 1 (seq [.cls .nword, strRE "st", .cls .nword])

/-- Source regex `gác lửng|gác lững|ghác lửng|ghác lững`. -/
def glRE : RE :=
  alts [strRE "gác lửng", strRE "gác lững", strRE "ghác lửng", strRE "ghác lững"]

/-- Embeds `new_check_additional_floor`: one point per additional-floor
word contained in the window, one more for a standalone `st`, one less
for a `gác lửng` variant. -/
def newCheckAdditionalFloor (srange : List Char) (additional : List String) : Int :=
  let base : Int := (additional.filter (fun w => containsSub w.data srange)).length
  let base := if reTest stRE srange then base + 1 else base
  if reTest glRE srange then base - 1 else base

/-- The `value_list[word_lower : word_upper + 1]` window joined with
spaces (`word_lower = max(i-4, 0)`,
`word_upper = i+4 if i+4 < len else len-1`). -/
def esWindow (vlist : List (List Char)) (i : Nat) : List Char :=
  let wl := i - 4
  let wu := if i + 4 < vlist.length then i + 4 else vlist.length - 1
  joinSpace ((vlist.drop wl).take (wu + 1 - wl))

/-- The `' '.join(value_list[word_lower:i])` prefix used by the
`hiện trạng` check. -/
def esPre (vlist : List (List Char)) (i : Nat) : List Char :=
  joinSpace ((vlist.drop (i - 4)).take (i - (i - 4)))

/-- The scanning `while` loop of `extract_separate` for one keyword,
fuelled by the remaining number of loop iterations. -/
def esScan (vlist : List (List Char)) (additional : List String) (kw : List Char) :
    Nat → Nat → Option PRat
  | 0, _ => none
  | fuel + 1, i =>
    if h : i < vlist.length then
      let wi := vlist.get ⟨i, h⟩
      if containsSub kw wi then
        let extracted := replaceChar ',' '.' (replaceSub kw [] (wi.length + 1) wi)
        if pyIsFloat extracted || (wtnLookup extracted).isSome then
          let srange := esWindow vlist i
          if reTest forbiddenRE srange then esScan vlist additional kw fuel (i + 1)
          else
            if pyIsFloat extracted || (wtnLookup extracted).isSome then
              let addKey := newCheckAdditionalFloor srange additional
              match floatParse extracted with
              | some f => some (f.abs.add (pyInt addKey))
              | none => some (pyInt ((wtnLookup extracted).getD 0 + addKey))
            else
              let addKey := newCheckAdditionalFloor srange additional
              if addKey > 0 then some (pyInt (addKey + 1))
              else esScan vlist additional kw fuel (i + 1)
        else if i ≥ 1 then
          let extracted := replaceChar ',' '.' (vlist.getD (i - 1) [])
          let srange := esWindow vlist i
          if reTest forbiddenRE srange then esScan vlist additional kw fuel (i + 1)
          else if containsSub "hiện trạng".data (esPre vlist i) then
            match floatParse extracted with
            | some f => some f.abs
            | none =>
              match wtnLookup extracted with
              | some n => some (pyInt n)
              | none => esScan vlist additional kw fuel (i + 1)
          else
            if pyIsFloat extracted || (wtnLookup extracted).isSome then
              let addKey := newCheckAdditionalFloor srange additional
              match floatParse extracted with
              | some f => some (f.abs.add (pyInt addKey))
              | none => some (pyInt ((wtnLookup extracted).getD 0 + addKey))
            else
              let addKey := newCheckAdditionalFloor srange additional
              if addKey > 0 then some (pyInt (addKey + 1))
              else esScan vlist additional kw fuel (i + 1)
        else esScan vlist additional kw fuel (i + 1)
      else esScan vlist additional kw fuel (i + 1)
    else none

/-- The outer keyword loop of `extract_separate`. -/
def esKwLoop (lv : List Char) (vlist : List (List Char)) (additional : List String) :
    List String → Option PRat
  | [] => none
  | kw :: rest =>
    if containsSub kw.data lv then
      match esScan vlist additional kw.data (vlist.length + 1) 0 with
      | some r => some r
      | none => esKwLoop lv vlist additional rest
    else esKwLoop lv vlist additional rest

/-- Embeds the `extract_separate` helper of `extract_num_floors`. -/
def extract_separate (lv : List Char) (fks : List String) : Option PRat :=
  let vlist := splitWs lv
  let additional := if fks.contains "trệt" then addFloorTret else addFloorDefault
  esKwLoop lv vlist additional fks

/-- Python truthiness of an optional float (`if extract_result:`):
`None` and `0.0` are falsy. -/
def pyTruthy (o : Option PRat) : Bool :=
  match o with
  | none => false
  | some v => !(PRat.beq v (pyInt 0))

/-- The text preprocessing
`.lower().replace('+', ' ').replace('x', ' ').replace('*', ' ')`. -/
def floorPrep (s : List Char) : List Char :=
  replaceChar '*' ' ' (replaceChar 'x' ' ' (replaceChar '+' ' ' (strLower s)))

/-- Source regex `nhà (?:\w+\s*){0,5}cũ|bán(?:\s+\S\s*){0,5}đất`
(old house / land sale). -/
def oldHouseRE : RE :=
  .alt (seq [strRE "nhà ", reps 0 5 (seq [plus (.cls .word), ws0]), strRE "cũ"])
       (seq [strRE "bán", reps 0 5 (seq [ws1, .cls .nspace, ws0]), strRE "đất"])

/-- Source regex `nhà cấp 4|nhà c4|cấp 4|nc4|nhà trệt|nhà nát`. -/
def cap4RE : RE :=
  alts [strRE "nhà cấp 4", strRE "nhà c4", strRE "cấp 4", strRE "nc4",
        strRE "nhà trệt", strRE "nhà nát"]

/-- Source regex `(?:tầng|lầu|tấm|mê)\s* ([\d\w]+):` (note the literal
space after `\s*`, present in the source). -/
def totalFloorRE : RE :=
  seq [alts [strRE "tầng", strRE "lầu", strRE "tấm", strRE "mê"], ws0, strRE " ",
       .grp 1 (plus (.cls .word)), strRE ":"]

/-- The structured `other_info['Số tầng']` step of `extract_num_floors`:
`.ok (some v)` when the source returns, `.ok none` when it falls
through, `.error` when it raises (bracket access on a missing key,
`.get` on a non-dict, empty split, unparsable int). -/
def structFloorStep (row : Row) : Except PyErr (Option PRat) :=
  match row.other_info with
  | .absent => .error .keyError
  | .nanv => .error .attributeError
  | .strv _ => .error .attributeError
  | .dictv d =>
    if d.isEmpty then .ok none
    else
      match dictGet d "Số tầng".data with
      | none => .ok none
      | some v =>
        if v.isEmpty then .ok none
        else
          match splitWs v with
          | [] => .error .indexError
          | w :: _ =>
            match intParse w with
            | some n => .ok (some (pyInt n))
            | none => .error .valueError

/-- The `total_pattern` collection of TH3: parseable captured tokens as
absolute floats or number words. -/
def totalFloorNums (ld : List Char) : List PRat :=
  ((reFindAll totalFloorRE ld).map (fun t => groupStr ld t.2.2 1)).foldr
    (fun g acc =>
      match floatParse g with
      | some f => f.abs :: acc
      | none =>
        match wtnLookup g with
        | some n => pyInt n :: acc
        | none => acc) []

/-- Embeds `DataCleaner.extract_num_floors`.  Returns the floor count,
or the exception the source raises (`KeyError` on missing keys,
`AttributeError`/`ValueError`/`IndexError` on malformed `other_info`,
`NameError` when line 694 reads `lower_title` although the title was
`NaN`). -/
def extract_num_floors (row : Row) : Except PyErr PRat :=
  match structFloorStep row with
  | .error e => .error e
  | .ok (some v) => .ok v
  | .ok none =>
    match row.description with
    | .absent => .error .keyError
    | desc =>
      let lowerDes : Option (List Char) :=
        match desc with
        | .strv s => some (floorPrep s)
        | _ => none
      let afterDes : Option (Except PyErr PRat) :=
        match lowerDes with
        | none => none
        | some ld =>
          if reTest oldHouseRE ld then some (.ok (pyInt 0))
          else
            match reSearch cap4RE ld with
            | some (i, e, _) =>
              if spanOf ld i e == "nhà trệt".data then
                let er := extract_separate ld floorKeywords
                if pyTruthy er then some (.ok (er.getD (pyInt 0)))
                else some (.ok (pyInt 1))
              else some (.ok (pyInt 1))
            | none => none
      match afterDes with
      | some r => r
      | none =>
        match row.title with
        | .absent => .error .keyError
        | titl =>
          let lowerTitle : Option (List Char) :=
            match titl with
            | .strv s => some (floorPrep s)
            | _ => none
          let afterTitle : Option (Except PyErr PRat) :=
            match lowerTitle with
            | none => none
            | some lt =>
              if reTest oldHouseRE lt then some (.ok (pyInt 0))
              else
                match reSearch cap4RE lt with
                | some (i, e, _) =>
                  if spanOf lt i e == "nhà trệt".data then
                    let er := extract_separate lt floorKeywords
                    if pyTruthy er then some (.ok (er.getD (pyInt 0)))
                    else some (.ok (pyInt 1))
                  else some (.ok (pyInt 1))
                | none =>
                  let er := extract_separate lt floorKeywords
                  if pyTruthy er then some (.ok (er.getD (pyInt 0)))
                  else none
          match afterTitle with
          | some r => r
          | none =>
            match lowerDes with
            | none => .ok (pyInt 1)
            | some ld =>
              if !(reFindAll totalFloorRE ld).isEmpty then
                match totalFloorNums ld with
                | [] => .ok (pyInt 1)
                | n :: ns => .ok (ns.foldl PRat.pymax n)
              else
                let er := extract_separate ld floorKeywords
                if pyTruthy er then .ok (er.getD (pyInt 0))
                else
                  let er2 := extract_separate ld tretKeywords
                  if pyTruthy er2 then .ok (er2.getD (pyInt 0))
                  else
                    match lowerTitle with
                    | none => .error .nameError
                    | some lt =>
                      let er3 := extract_separate lt tretKeywords
                      if pyTruthy er3 then .ok (er3.getD (pyInt 0))
                      else .ok (pyInt 1)

/-! ## `extract_total_area` (`cleaning.py` lines 506–526) -/

/-- Iteration over the parsed `main_info` items: return the first
parseable `Diện tích` value; iterating a non-dict item raises
`AttributeError` (not caught by the source's `except`). -/
def areaItems : List JVal → Except PyErr (Option PRat)
  | [] => .ok none
  | .jobj fs :: rest =>
    let isArea :=
      match jobjGet fs "title".data with
      | some (.jstr s) => s == "Diện tích".data
      | _ => false
    if isArea then
      match parseCleanNumber ((jobjGet fs "value".data).bind JVal.asStr) with
      | some a => .ok (some a)
      | none => areaItems rest
    else areaItems rest
  | _ :: _ => .error .attributeError

/-- Iterating `json.loads(main_info)` when it is not a list: a dict
yields its keys (strings, whose `.get` raises `AttributeError`), a
string yields characters, `None` is not iterable. -/
def areaFromMainInfo (j : JVal) : Except PyErr (Option PRat) :=
  match j with
  | .jarr items => areaItems items
  | .jobj [] => .ok none
  | .jobj (_ :: _) => .error .attributeError
  | .jstr [] => .ok none
  | .jstr (_ :: _) => .error .attributeError
  | .jnull => .error .typeError

/-- Embeds `DataCleaner.extract_total_area`: the structured side-panel
`Diện tích` (main panel, then `other_info`), `none` for the `np.nan`
fallback. -/
def extract_total_area (row : Row) : Except PyErr (Option PRat) :=
  let step1 : Except PyErr (Option PRat) :=
    if row.main_info.notna then
      match jsonLoads row.main_info with
      | .ok j => areaFromMainInfo j
      | .error _ => .ok none
    else .ok none
  match step1 with
  | .error e => .error e
  | .ok (some a) => .ok (some a)
  | .ok none =>
    match row.other_info with
    | .strv s =>
      match jsonLoads (.strv s) with
      | .ok (.jobj fs) =>
        .ok (parseCleanNumber ((jobjGet fs "Diện tích".data).bind JVal.asStr))
      | .ok _ => .error .attributeError
      | .error _ => .ok none
    | _ => .ok none

/-! ## `get_construction_cost` (`cleaning.py` lines 828–879) -/

/-- Modelled from the spec: `CONSTRUCTION_COST_MAP` is referenced by
`get_construction_cost` but is not defined anywhere under `src/`.  The
spec describes "a fixed cost-per-m² table keyed by (type,
floor-count-bucket, has-basement)"; the values are the tariffs of the
parallel `extract_construction_cost` in `cleaning.py` (villa 10 510 920
/ with basement 12 848 184, fourth-category house 4 000 000, one-storey
6 275 876, two-or-more storeys 8 221 171 / with basement 9 504 604). -/
def CONSTRUCTION_COST_MAP : List (String × Nat) :=
  [("biệt_thự", 10510920), ("biệt_thự_có_hầm", 12848184),
   ("nhà_cấp_4", 4000000), ("nhà_1_tầng_btct", 6275876),
   ("nhà_gte_2_tầng_không_hầm", 8221171), ("nhà_gte_2_tầng_có_hầm", 9504604)]

def ccLookup (k : String) : Nat :=
  ((CONSTRUCTION_COST_MAP.find? (fun p => p.1 == k)).map Prod.snd).getD 0

/-- Source regex `\bbán\s+(căn\s+)?biệt\s+thự\b`. -/
def villaRE1 : RE :=
  seq [.wb, strRE "bán", ws1, opt (.grp 1 (seq [strRE "căn", ws1])),
       strRE "biệt", ws1, strRE "thự", .wb]

/-- Source regex `\bnhà\s+(kiểu\s+)?biệt\s+thự\b`. -/
def villaRE2 : RE :=
  seq [.wb, strRE "nhà", ws1, opt (.grp 1 (seq [strRE "kiểu", ws1])),
       strRE "biệt", ws1, strRE "thự", .wb]

/-- Source regex
`\b(căn\s+)?biệt\s+thự\s+(đơn\s+lập|sân\s+vườn|vườn|cao\s+cấp|đẹp|view|4\s+mặt)\b`. -/
def villaRE3 : RE :=
  seq [.wb, opt (.grp 1 (seq [strRE "căn", ws1])), strRE "biệt", ws1, strRE "thự", ws1,
       .grp 2 (alts [seq [strRE "đơn", ws1, strRE "lập"], seq [strRE "sân", ws1, strRE "vườn"],
          strRE "vườn", seq [strRE "cao", ws1, strRE "cấp"], strRE "đẹp", strRE "view",
          seq [strRE "4", ws1, strRE "mặt"]]), .wb]

/-- Source regex `\b(liền\s+kề|gần|cách|khu|đối\s+diện|thuộc|gần\s+khu)\s+biệt\s+thự\b`. -/
def villaExclRE : RE :=
  seq [.wb, .grp 1 (alts [seq [strRE "liền", ws1, strRE "kề"], strRE "gần", strRE "cách",
          strRE "khu", seq [strRE "đối", ws1, strRE "diện"], strRE "thuộc",
          seq [strRE "gần", ws1, strRE "khu"]]),
       ws1, strRE "biệt", ws1, strRE "thự", .wb]

/-- Source regex `\bnhà\s+cấp\s*4\b`. -/
def cap4WordRE : RE :=
  seq [.wb, strRE "nhà", ws1, strRE "cấp", ws0, strRE "4", .wb]

/-- Source regex `\b(tầng\s+)?hầm\b` of `_has_bsmt`. -/
def bsmtRE : RE :=
  seq [.wb, opt (.grp 1 (seq [strRE "tầng", ws1])), strRE "hầm", .wb]

/-- Embeds `DataCleaner.get_construction_cost`.  The helper
`extract_num_floors` is called unconditionally, so its exceptions
propagate; the source's `floors is None` branch is mirrored through an
`Option` that is always `some` (the helper never returns `None`). -/
def get_construction_cost (row : Row) : Except PyErr Nat :=
  if row.is_land then .ok 0
  else
    let text := rowText row
    let ptype : String :=
      if (reTest villaRE1 text || reTest villaRE2 text || reTest villaRE3 text) &&
         !(reTest villaExclRE text) then "biệt thự"
      else if reTest cap4WordRE text then "nhà cấp 4"
      else "nhà thường"
    match extract_num_floors row with
    | .error e => .error e
    | .ok floorsV =>
      match extract_total_area row with
      | .error e => .error e
      | .ok area =>
        let hasB := reTest bsmtRE text
        if ptype == "biệt thự" then
          .ok (ccLookup (if hasB then "biệt_thự_có_hầm" else "biệt_thự"))
        else if ptype == "nhà cấp 4" then .ok (ccLookup "nhà_cấp_4")
        else
          match (some floorsV : Option PRat) with
          | none => .ok (ccLookup "nhà_1_tầng_btct")
          | some floors =>
            if PRat.beq floors (pyInt 1) then
              match area with
              | some a =>
                if PRat.blt a (pyInt 35) then .ok (ccLookup "nhà_cấp_4")
                else .ok (ccLookup "nhà_1_tầng_btct")
              | none => .ok (ccLookup "nhà_1_tầng_btct")
            else if PRat.ble (pyInt 2) floors then
              .ok (ccLookup (if hasB then "nhà_gte_2_tầng_có_hầm" else "nhà_gte_2_tầng_không_hầm"))
            else .ok (ccLookup "nhà_1_tầng_btct")

/-! ## `extract_facade_width` (lines 931–981) and `extract_land_length`
(lines 1002–1034) -/

/-- The class `[\d.,]`. -/
def numTokCC : RE := .alt (.cls .digit) (.cls (.oneOf ['.', ',']))

/-- Source regex
`(?:mặt tiền|chiều rộng|chiều ngang|rộng|ngang)\s*:?\s*([\d.,]+\s*m)\b`. -/
def facadeFindRE : RE :=
  seq [alts [strRE "mặt tiền", strRE "chiều rộng", strRE "chiều ngang",
        strRE "rộng", strRE "ngang"],
       ws0, opt (strRE ":"), ws0,
       .grp 1 (seq [plus numTokCC, ws0, strRE "m"]), .wb]

/-- Source regex
`(diện\s+tích|dt|kích\s+thước)\s*[:\-]?\s*([\d.,]+)\s*m?(?:²)?\s*[xX*]\s*([\d.,]+)\s*m?(?:²)?`
(the `A x B` dimension-pair pattern; the keyword alternation is capture
group 1, the operands are groups 2 and 3). -/
def sizePairRE : RE :=
  seq [.grp 1 (alts [seq [strRE "diện", ws1, strRE "tích"], strRE "dt",
          seq [strRE "kích", ws1, strRE "thước"]]),
       ws0, opt (.cls (.oneOf [':', '-'])), ws0,
       .grp 2 (plus numTokCC), ws0, opt (strRE "m"), opt (strRE "²"), ws0,
       .cls (.oneOf ['x', 'X', '*']), ws0,
       .grp 3 (plus numTokCC), ws0, opt (strRE "m"), opt (strRE "²")]

/-- Embeds `json.loads(row.get("other_info", "{}") or "{}")` (and the
`main_info`/`"[]"` variant): the default string for an absent key or an
empty string, `TypeError` for a non-string value. -/
def jloadsDefault (o : PyObj) (dflt : String) : Except PyErr JVal :=
  match o with
  | .absent => jsonLoads (.strv dflt.data)
  | .strv s => if s.isEmpty then jsonLoads (.strv dflt.data) else jsonLoads (.strv s)
  | .nanv => .error .typeError
  | .dictv _ => .error .typeError

/-- The `PyStr` variant of `jloadsDefault` (for `main_info`). -/
def jloadsDefaultS (o : PyStr) (dflt : String) : Except PyErr JVal :=
  match o with
  | .absent => jsonLoads (.strv dflt.data)
  | .strv s => if s.isEmpty then jsonLoads (.strv dflt.data) else jsonLoads (.strv s)
  | .nanv => .error .typeError

/-- Python truthiness of a JSON value (`if val:`). -/
def jvTruthy : Option JVal → Bool
  | none => false
  | some (.jstr s) => !s.isEmpty
  | some (.jobj fs) => !fs.isEmpty
  | some (.jarr xs) => !xs.isEmpty
  | some .jnull => false

/-- The `_find` helper of `extract_facade_width`. -/
def facadeFind (t : List Char) : Option PRat :=
  if t.isEmpty then none
  else
    match reSearch facadeFindRE (strLower t) with
    | some (_, _, caps) => parse_and_clean_width (some (groupStr (strLower t) caps 1))
    | none => none

/-- The `main_info` loop of `extract_facade_width`: the facade regex
over the `ext` text of the `Diện tích` item. -/
def facadeMainItems : List JVal → Except PyErr (Option PRat)
  | [] => .ok none
  | .jobj fs :: rest =>
    let isArea :=
      match jobjGet fs "title".data with
      | some (.jstr s) => s == "Diện tích".data
      | _ => false
    if isArea && jvTruthy (jobjGet fs "ext".data) then
      match jobjGet fs "ext".data with
      | some (.jstr ext) =>
        match facadeFind ext with
        | some w => .ok (some w)
        | none => facadeMainItems rest
      | _ => .error .attributeError
    else facadeMainItems rest
  | _ :: _ => .error .attributeError

/-- Embeds `DataCleaner.extract_facade_width`: structured `Mặt tiền`,
then the `Diện tích` side-panel `ext`, then keyword+number regex over
description/title, then the `A x B` pair (minimum of the operands).
Calling `.get` on a parsed non-dict raises `AttributeError` (not caught
by the source). -/
def extract_facade_width (row : Row) : Except PyErr (Option PRat) :=
  let step1 : Except PyErr (Option PRat) :=
    match jloadsDefault row.other_info "\x7b\x7d" with
    | .ok (.jobj fs) =>
      .ok (parse_and_clean_width ((jobjGet fs "Mặt tiền".data).bind JVal.asStr))
    | .ok _ => .error .attributeError
    | .error _ => .ok none
  match step1 with
  | .error e => .error e
  | .ok (some w) => .ok (some w)
  | .ok none =>
    let step2 : Except PyErr (Option PRat) :=
      match jloadsDefaultS row.main_info "[]" with
      | .ok (.jarr items) => facadeMainItems items
      | .ok (.jobj []) => .ok none
      | .ok (.jstr []) => .ok none
      | .ok .jnull => .error .typeError
      | .ok _ => .error .attributeError
      | .error _ => .ok none
    match step2 with
    | .error e => .error e
    | .ok (some w) => .ok (some w)
    | .ok none =>
      match facadeFind row.description.getStr with
      | some w => .ok (some w)
      | none =>
        match facadeFind row.title.getStr with
        | some w => .ok (some w)
        | none =>
          let desc := strLower (row.description.getS [])
          match reSearch sizePairRE desc with
          | some (_, _, caps) =>
            match parseCleanNumber (some (groupStr desc caps 2)),
                  parseCleanNumber (some (groupStr desc caps 3)) with
            | some n1, some n2 => .ok (some (PRat.pymin n1 n2))
            | _, _ => .ok none
          | none => .ok none

/-- Source regex `(?:dài|chiều\s+dài)\s*:?\s*([\d.,]+)`. -/
def daiRE : RE :=
  seq [alts [strRE "dài", seq [strRE "chiều", ws1, strRE "dài"]],
       ws0, opt (strRE ":"), ws0, .grp 1 (plus numTokCC)]

/-- The `_find` helper of `extract_land_length`.  In the dimension-pair
branch the source reads `group(1)` (the keyword alternation) and
`group(2)` (the first operand) instead of the two operands. -/
def landLenFind (t : List Char) : Option PRat :=
  if t.isEmpty then none
  else
    let tl := strLower t
    match reSearch daiRE tl with
    | some (_, _, caps) => parseCleanNumber (some (groupStr tl caps 1))
    | none =>
      match reSearch sizePairRE tl with
      | some (_, _, caps) =>
        match parseCleanNumber (some (groupStr tl caps 1)),
              parseCleanNumber (some (groupStr tl caps 2)) with
        | some n1, some n2 => some (PRat.pymax n1 n2)
        | _, _ => none
      | none => none

/-- Embeds `DataCleaner.extract_land_length`: structured `Chiều dài`
(truthily), then `_find` over description and title (truthily). -/
def extract_land_length (row : Row) : Except PyErr (Option PRat) :=
  let step1 : Except PyErr (Option PRat) :=
    match jloadsDefault row.other_info "\x7b\x7d" with
    | .ok (.jobj fs) =>
      let length := parseCleanNumber ((jobjGet fs "Chiều dài".data).bind JVal.asStr)
      .ok (if pyTruthy length then length else none)
    | .ok _ => .error .attributeError
    | .error _ => .ok none
  match step1 with
  | .error e => .error e
  | .ok (some w) => .ok (some w)
  | .ok none =>
    let d := landLenFind row.description.getStr
    if pyTruthy d then .ok d
    else
      let t := landLenFind row.title.getStr
      if pyTruthy t then .ok t else .ok none

/-! ## `extract_alley_width` (`cleaning.py` lines 1037–1124) -/

/-- `alley_kw`: `(?:ngõ|hẻm|ngách|kiệt|đường\s+vào|lối\s+vào|trước\s+nhà|đường\s+trước\s+nhà)`. -/
def alleyKw : RE :=
  alts [strRE "ngõ", strRE "hẻm", strRE "ngách", strRE "kiệt",
        seq [strRE "đường", ws1, strRE "vào"], seq [strRE "lối", ws1, strRE "vào"],
        seq [strRE "trước", ws1, strRE "nhà"],
        seq [strRE "đường", ws1, strRE "trước", ws1, strRE "nhà"]]

/-- `vehicle_kw`: `(?:oto|ô\s*tô|xe\s+hơi|xe\s+tải|ba\s+gác|xe\s+máy)`. -/
def vehKw : RE :=
  alts [strRE "oto", seq [strRE "ô", ws0, strRE "tô"], seq [strRE "xe", ws1, strRE "hơi"],
        seq [strRE "xe", ws1, strRE "tải"], seq [strRE "ba", ws1, strRE "gác"],
        seq [strRE "xe", ws1, strRE "máy"]]

/-- `approx_kw`: `(?:rộng\s*)?(?:khoảng|gần|trên\s+dưới|tầm|xấp\s+xỉ)?\s*`. -/
def approxKw : RE :=
  seq [opt (seq [strRE "rộng", ws0]),
       opt (alts [strRE "khoảng", strRE "gần", seq [strRE "trên", ws1, strRE "dưới"],
          strRE "tầm", seq [strRE "xấp", ws1, strRE "xỉ"]]), ws0]

/-- `num_pat`: `(\d{1,2}(?:[.,]\d{1,2})?)\s*(m|mét)(?!²|2)`. -/
def alleyNumPat : RE :=
  seq [.grp 1 (seq [reps 1 2 (.cls .digit),
          opt (seq [.cls (.oneOf ['.', ',']), reps 1 2 (.cls .digit)])]),
       ws0, .grp 2 (.alt (strRE "m") (strRE "mét")), .nla (.alt (strRE "²") (strRE "2"))]

/-- `alley_phrase`: `(?:{alley_kw}(?:\s+{alley_kw})?)`. -/
def alleyPhrase : RE := seq [alleyKw, opt (seq [ws1, alleyKw])]

/-- `[^.,;:\n\r]{0,n}`. -/
def gapN (n : Nat) : RE := reps 0 n (.cls (.noneOf ['.', ',', ';', ':', '\n', '\r']))

/-- The seven alley-width patterns, in source order. -/
def alleyPatterns : List RE :=
  [seq [.wb, alleyPhrase, .wb, ws0, alleyNumPat, .wb],
   seq [alleyNumPat, .wb, ws0, .wb, alleyPhrase, .wb],
   seq [.wb, alleyPhrase, .wb, gapN 20, .wb, approxKw, alleyNumPat, .wb],
   seq [.wb, approxKw, alleyNumPat, .wb, gapN 20, .wb, alleyPhrase, .wb],
   seq [.wb, alleyPhrase, .wb, gapN 30, .wb, vehKw, .wb, gapN 20, .wb, approxKw, alleyNumPat, .wb],
   seq [.wb, approxKw, alleyNumPat, .wb, gapN 20, .wb, vehKw, .wb, gapN 30, .wb, alleyPhrase, .wb],
   seq [.wb, strRE "tiếp giáp", .wb, gapN 20, .wb, alleyPhrase, .wb, gapN 20, .wb, approxKw,
        alleyNumPat, .wb]]

/-- `num_str = next((m for m in match if re.match(r"^\d", m)), None)`:
the first captured group whose text starts with a digit. -/
def pickNumGroup (gs : List (List Char)) : Option (List Char) :=
  gs.find? (fun g => match g with | c :: _ => c.isDigit | [] => false)

/-- The `vehicle_fallback` table, in source order. -/
def vehicleFallback : List (String × PRat) :=
  [("ngõ xe tải tránh", ⟨10, 1⟩), ("ngõ xe tải", ⟨8, 1⟩),
   ("ngõ ô tô tránh", ⟨5, 1⟩), ("ngõ oto tránh", ⟨5, 1⟩),
   ("ô tô đỗ cửa", ⟨35, 10⟩), ("oto vào", ⟨35, 10⟩), ("ô tô vào", ⟨35, 10⟩),
   ("ô tô ra", ⟨35, 10⟩), ("oto đỗ cửa", ⟨35, 10⟩), ("ô tô quay đầu", ⟨5, 1⟩),
   ("hẻm ô tô", ⟨4, 1⟩), ("hẻm xe hơi", ⟨4, 1⟩), ("ngõ ô tô", ⟨4, 1⟩),
   ("ba gác tránh", ⟨25, 10⟩), ("xe máy tránh", ⟨25, 10⟩)]

/-- The `descriptive_fallback` table, in source order. -/
def descriptiveFallback : List (String × PRat) :=
  [("ngõ thông", ⟨5, 1⟩), ("hẻm thông", ⟨3, 1⟩), ("ngõ hẹp", ⟨25, 10⟩), ("hẻm hẹp", ⟨15, 10⟩)]

/-- Embeds `DataCleaner.extract_alley_width`.  The structured
`Đường vào` value is consulted first; the explicit on-main-road check
sits last, after every pattern and fallback, exactly as in the source
(where the branch is labelled `=== 0.` but placed at the end). -/
def extract_alley_width (row : Row) : Except PyErr (Option PRat) :=
  let normText := strLower (alleyText row)
  let step1 : Except PyErr (Option PRat) :=
    match jloadsDefault row.other_info "\x7b\x7d" with
    | .ok (.jobj fs) =>
      let w := parse_and_clean_width ((jobjGet fs "Đường vào".data).bind JVal.asStr)
      .ok (if pyTruthy w then w else none)
    | .ok _ => .error .attributeError
    | .error _ => .ok none
  match step1 with
  | .error e => .error e
  | .ok (some w) => .ok (some w)
  | .ok none =>
    let widths : List PRat :=
      alleyPatterns.foldr (fun pat acc =>
        (reFindAll pat normText).foldr (fun t acc2 =>
          let gs := [groupStr normText t.2.2 1, groupStr normText t.2.2 2]
          match parse_and_clean_width (pickNumGroup gs) with
          | some w => if PRat.beq w (pyInt 0) then acc2 else w :: acc2
          | none => acc2) acc) []
    match widths with
    | w :: ws =>
      let m := ws.foldl PRat.pymin w
      .ok (if PRat.blt m (pyInt 10) then some m else none)
    | [] =>
      match vehicleFallback.find? (fun e => containsSub e.1.data normText) with
      | some e => .ok (if PRat.blt e.2 (pyInt 15) then some e.2 else none)
      | none =>
        match descriptiveFallback.find? (fun e => containsSub e.1.data normText) with
        | some e => .ok (if PRat.blt e.2 (pyInt 15) then some e.2 else none)
        | none =>
          if is_on_main_road normText then .ok (some (pyInt 0))
          else .ok none

/-! ## `extract_distance_to_main_road` (`cleaning.py` lines 1127–1198) -/

/-- `road_kw`: the alternation of the `road_prefixes` list. -/
def roadKw : RE :=
  alts [seq [strRE "đường", ws1, plus (.cls .lowerAlnumSlash)],
        seq [strRE "phố", ws1, plus (.cls .lowerAlnumSlash)],
        seq [strRE "trục", ws1, strRE "chính"],
        seq [strRE "đường", ws1, strRE "lớn"],
        seq [strRE "đường", ws1, strRE "chính"],
        seq [strRE "đường", ws1, strRE "ô", ws0, strRE "tô"],
        seq [strRE "mặt", ws1, strRE "phố"],
        seq [strRE "mặt", ws1, strRE "tiền"],
        seq [strRE "mặt", ws1, strRE "đường"],
        strRE "ô tô đỗ", strRE "chỗ đỗ xe", strRE "ô tô đậu"]

/-- `dist_cap` with the given group numbers for the number and the
optional unit: `(\d{1,3}(?:[\.,]\d{1,2})?)\s*(km|m|mét)?`. -/
def distCap (gnum gunit : Nat) : RE :=
  seq [.grp gnum (seq [reps 1 3 (.cls .digit),
          opt (seq [.cls (.oneOf ['.', ',']), reps 1 2 (.cls .digit)])]),
       ws0, opt (.grp gunit (alts [strRE "km", strRE "m", strRE "mét"]))]

/-- `patt1`: `{road_kw}.*?(cách|khoảng|tầm|tới|ra|đến)\s*{dist_cap}`. -/
def distPatt1 : RE :=
  seq [roadKw, .rep 0 none true (.cls .anyc),
       .grp 1 (alts [strRE "cách", strRE "khoảng", strRE "tầm", strRE "tới",
          strRE "ra", strRE "đến"]),
       ws0, distCap 2 3]

/-- `patt2`: `.*(?:cách|khoảng|tầm)\s*{dist_cap}\s*(đến|tới|ra)?\s*{road_kw}`. -/
def distPatt2 : RE :=
  seq [star (.cls .anyc), alts [strRE "cách", strRE "khoảng", strRE "tầm"], ws0,
       distCap 1 2, ws0, opt (.grp 3 (alts [strRE "đến", strRE "tới", strRE "ra"])),
       ws0, roadKw]

/-- `patt3`: `{dist_cap}\s*(?:đến|tới|ra|cách)?\s*{road_kw}`. -/
def distPatt3 : RE :=
  seq [distCap 1 2, ws0,
       opt (alts [strRE "đến", strRE "tới", strRE "ra", strRE "cách"]), ws0, roadKw]

/-- `patt4`: `(?:cách|ra|tới|đến)\s+{road_kw}\s*{dist_cap}`. -/
def distPatt4 : RE :=
  seq [alts [strRE "cách", strRE "ra", strRE "tới", strRE "đến"], ws1, roadKw, ws0,
       distCap 1 2]

/-- `place_of_interest`. -/
def poiRE : RE :=
  .grp 1 (alts [strRE "bigc", strRE "vincom", strRE "trường", strRE "chợ",
     strRE "bệnh viện", strRE "công viên",
     seq [strRE "khu", ws1, strRE "vui", ws1, strRE "chơi"], strRE "tttm",
     strRE "siêu thị", seq [strRE "trung", ws1, strRE "tâm"],
     seq [strRE "sân", ws1, strRE "vận", ws1, strRE "động"],
     seq [strRE "bến", ws1, strRE "xe"], strRE "cafe",
     seq [strRE "nhà", ws1, strRE "hàng"]])

/-- Shallow-alley phrase pattern (distance ≈ 10 m). -/
def distPhrase1 : RE :=
  .grp 1 (alts [seq [strRE "ngõ", ws1, strRE "nông"], seq [strRE "ngõ", ws1, strRE "rộng"],
     seq [strRE "ngõ", ws1, strRE "thoáng"],
     seq [strRE "ngõ", ws1, strRE "gần", ws1,
        .grp 2 (alts [strRE "đường", strRE "phố",
           seq [strRE "mặt", ws1, .grp 3 (alts [strRE "phố", strRE "đường"])]])],
     seq [strRE "hẻm", ws1, strRE "gần", ws1,
        .grp 4 (alts [strRE "đường", strRE "phố",
           seq [strRE "mặt", ws1, .grp 5 (alts [strRE "phố", strRE "đường"])]])]])

/-- Narrow-alley phrase pattern (distance ≈ 20 m). -/
def distPhrase2 : RE :=
  .grp 1 (alts [seq [strRE "ngõ", ws1, strRE "hẹp"], seq [strRE "hẻm", ws1, strRE "hẹp"],
     seq [strRE "ngõ", ws1, strRE "xe", ws1, strRE "máy", opt (seq [ws1, strRE "vào"])],
     seq [strRE "hẻm", ws1, strRE "xe", ws1, strRE "máy", opt (seq [ws1, strRE "vào"])]])

/-- Deep-alley phrase pattern (distance ≈ 30 m). -/
def distPhrase3 : RE :=
  .grp 1 (.alt (seq [strRE "trong", ws1, strRE "hẻm", ws1, strRE "sâu"])
              (seq [strRE "hẻm", ws1, strRE "sâu"]))

/-- The captured groups of one match, in group order. -/
def matchGroups (s : List Char) (caps : Caps) (n : Nat) : List (List Char) :=
  (List.range n).map (fun k => groupStr s caps (k + 1))

/-- One match's contribution: drop matches naming a point of interest,
convert `match[-2]` with unit `match[-1] or "m"`, keep `0 < d < 1000`. -/
def distFromMatch (gs : List (List Char)) : Option PRat :=
  if reTest poiRE (joinSpace gs) then none
  else
    let num := gs.getD (gs.length - 2) []
    let unitRaw := gs.getD (gs.length - 1) []
    let unit := if unitRaw.isEmpty then "m".data else unitRaw
    match parseCleanNumber (some num) with
    | none => none
    | some c =>
      let conv := if strLower unit == "km".data then (c.mul (pyInt 1000)).round2
        else c.round2
      if PRat.blt (pyInt 0) conv && PRat.blt conv (pyInt 1000) then some conv else none

/-- Embeds `DataCleaner.extract_distance_to_main_road`.  The
`random.randint(10, 200)` fallback is modelled by the explicit oracle
argument `rand`: a run of the Python function corresponds to some value
of `rand` in `[10, 200]`. -/
def extract_distance_to_main_road (rand : Nat) (row : Row) : Option PRat :=
  let text := rowText row
  if (stripWs text).isEmpty then none
  else if is_on_main_road text then some (pyInt 0)
  else
    let allMatches :=
      ((reFindAll distPatt1 text).map (fun t => matchGroups text t.2.2 3)) ++
      ((reFindAll distPatt2 text).map (fun t => matchGroups text t.2.2 3)) ++
      ((reFindAll distPatt3 text).map (fun t => matchGroups text t.2.2 2)) ++
      ((reFindAll distPatt4 text).map (fun t => matchGroups text t.2.2 2))
    let dists := allMatches.foldr (fun gs acc =>
      match distFromMatch gs with
      | some d => d :: acc
      | none => acc) []
    match dists with
    | d :: ds => some (ds.foldl PRat.pymin d)
    | [] =>
      if reTest distPhrase1 text then some (pyInt 10)
      else if reTest distPhrase2 text then some (pyInt 20)
      else if reTest distPhrase3 text then some (pyInt 30)
      else some (pyInt rand)

/-! ## `AddressStandardizer.standardize_district`
(`address_standardizer.py` lines 142–160) -/

/-- The administrative prefixes recognised by `standardize_district`. -/
def ADMIN_PREFIXES : List String :=
  ["Thành phố", "Thành Phố", "Quận", "Huyện", "Thị xã", "Thị Xã", "Đảo"]

/-- Association-list lookup (a Python dict read). -/
def alistGet (l : List (String × α)) (k : String) : Option α :=
  (l.find? (fun p => p.1 == k)).map Prod.snd

/-- Embeds `AddressStandardizer.standardize_district`.  `provMap` is the
`reverse_district` table (province → stripped district name → canonical
name) built from the external administrative reference data; both maps
are association lists in dict insertion order.  `district = none` models
a non-string field; an absent or unknown province raises `KeyError`. -/
def standardize_district (provMap : List (String × List (String × String)))
    (province : Option String) (district : Option String) : Except PyErr (Option String) :=
  match district with
  | none => .ok none
  | some dv =>
    if dv == "Quận 2" || dv == "Quận 9" then .ok (some "Thành phố Thủ Đức")
    else if ADMIN_PREFIXES.any (fun pre => pre.data.isPrefixOf dv.data) then .ok (some dv)
    else
      match province with
      | none => .error .keyError
      | some pv =>
        match alistGet provMap pv with
        | none => .error .keyError
        | some m =>
          match alistGet m dv with
          | some canon => .ok (some canon)
          | none =>
            match m.find? (fun e => fuzzGe dv.data e.1.data 66) with
            | some e => .ok (some e.2)
            | none => .ok none

/-! ## `FeatureEngineer.calculate_land_unit_price`
(`feature_engineering.py` lines 78–116) -/

/-- Embeds `calculate_land_unit_price` over the five row fields it
reads (absent/NaN modelled as `none`): `None` when any field is missing
or an area is non-positive, `None` when the building value reaches the
asking price, else `(price − building value) / land area` rounded to
two decimals. -/
def calculate_land_unit_price (price ccost larea rq tfa : Option PRat) : Option PRat :=
  match price, ccost, larea, rq, tfa with
  | some p, some c, some a, some q, some f =>
    if PRat.ble a (pyInt 0) || PRat.ble f (pyInt 0) then none
    else
      let building := (c.mul f).mul q
      if PRat.ble p building then none
      else some (((p.sub building).div a).round2)
  | _, _, _, _, _ => none

end BDS

namespace BDS

/-! ## Concrete rows used by the claim theorems -/

/-- A raw row with every field absent (an empty row dict). -/
def rowNoFields : Row := ⟨.absent, .absent, .absent, .absent, false⟩

/-- Row whose title carries a land-sale phrase while the description
carries a fourth-category-house phrase. -/
def rowLandTitleCap4Desc : Row :=
  ⟨.strv "bán ô đất".data, .strv "nhà cấp 4".data, .dictv [], .absent, false⟩

/-- Row whose description carries a land-sale phrase. -/
def rowLandDesc : Row := ⟨.absent, .strv "bán ô đất".data, .dictv [], .absent, false⟩

/-- Row that asserts a main-road frontage in its title and carries a
structured side-panel alley width of 3 m. -/
def rowRoadWithDuongVao : Row :=
  ⟨.strv "Nhà mặt tiền đường Lê Lợi".data, .absent,
   .strv "\x7b\"Đường vào\": \"3 m\"\x7d".data, .absent, false⟩

/-- Row whose description carries only a free-text dimension pair. -/
def rowDimPair : Row := ⟨.absent, .strv "diện tích 4 x 16".data, .absent, .absent, false⟩

/-- Row whose text has no road-distance signal at all. -/
def rowNoSignal : Row := ⟨.strv "khu yên tĩnh".data, .absent, .absent, .absent, false⟩

/-- Row that asserts a main-road frontage with no other signal. -/
def rowOnRoad : Row :=
  ⟨.strv "Nhà mặt tiền đường Lê Lợi".data, .absent, .absent, .absent, false⟩

/-- C1: on a row with no fields at all, `get_construction_cost` raises a
`KeyError` (through its unconditional `extract_num_floors` call reading
`row['other_info']`) instead of returning a value or null, while
`estimate_remaining_quality` and `extract_land_shape` do return their
defaults on the same row. -/
theorem C1_construction_cost_raises_on_missing_fields :
    get_construction_cost rowNoFields = .error .keyError ∧
    estimate_remaining_quality rowNoFields = DEFAULT_QUALITY ∧
    extract_land_shape rowNoFields = "Chữ nhật" := by
  refine ⟨by decide, by decide, by decide⟩

/-- C5: on a row whose text asserts a main-road frontage
(`is_on_main_road` holds) but whose structured side panel carries
`Đường vào: 3 m`, `extract_alley_width` returns 3.0 from the side panel:
the on-main-road branch sits after every other branch in the source, so
it does not take precedence and the claimed 0.0 is not returned. -/
theorem C5_side_panel_beats_main_road :
    is_on_main_road (strLower (alleyText rowRoadWithDuongVao)) = true ∧
    extract_alley_width rowRoadWithDuongVao = .ok (some ⟨300, 100⟩) ∧
    (⟨300, 100⟩ : PRat).toRat = 3 := by
  refine ⟨by decide, by decide, by norm_num [PRat.toRat]⟩

/-- C6: on a description containing only the dimension pair
`diện tích 4 x 16`, `extract_facade_width` returns the smaller operand
4.0 as claimed, but `extract_land_length` returns null instead of the
claimed 16.0: its dimension-pair branch reads capture group 1 (the
keyword `diện tích`) and group 2 (the first operand) instead of the two
numeric operands, and the keyword never parses as a number. -/
theorem C6_land_length_group_slip :
    extract_facade_width rowDimPair = .ok (some ⟨400, 100⟩) ∧
    (⟨400, 100⟩ : PRat).toRat = 4 ∧
    extract_land_length rowDimPair = .ok none := by
  refine ⟨by decide, by norm_num [PRat.toRat], by decide⟩

/-- C9 counterexample: `extract_distance_to_main_road` is not a function
of the row alone — on a row with no road signal its result equals the
random draw, so two runs with different draws differ. -/
theorem C9_counterexample_random_fallback :
    extract_distance_to_main_road 10 rowNoSignal ≠
      extract_distance_to_main_road 11 rowNoSignal := by
  decide

/-- C9 (amended): on any row whose combined text asserts a main-road
frontage, `extract_distance_to_main_road` does not consult the random
draw: any two draws give the same result. -/
theorem C9_deterministic_when_on_road (r1 r2 : Nat) (row : Row)
    (h : is_on_main_road (rowText row) = true) :
    extract_distance_to_main_road r1 row = extract_distance_to_main_road r2 row := by
  simp only [extract_distance_to_main_road, h]
  split <;> rfl

/-- Witness for `C9_deterministic_when_on_road` at a concrete row. -/
theorem C9_deterministic_witness :
    is_on_main_road (rowText rowOnRoad) = true ∧
    extract_distance_to_main_road 10 rowOnRoad = extract_distance_to_main_road 200 rowOnRoad :=
  ⟨by decide, C9_deterministic_when_on_road 10 200 rowOnRoad (by decide)⟩

end BDS

namespace BDS

/-! ## Lemmas for C2 -/

theorem mem_dictUpd {P : PRat → Prop} {acc : List (PRat × List Char × PRat)}
    {k : PRat} {v : List Char × PRat}
    (hacc : ∀ e ∈ acc, P e.1) (hk : P k) :
    ∀ e ∈ dictUpd acc k v, P e.1 := by
  intro e he
  unfold dictUpd at he
  split at he
  · obtain ⟨a, ha, hae⟩ := List.mem_map.mp he
    by_cases hb : PRat.beq a.1 k = true
    · simp only [hb, if_true] at hae
      rw [← hae]
      exact hk
    · simp only [hb, if_false] at hae
      rw [← hae]
      exact hacc a ha
  · rcases List.mem_append.mp he with h | h
    · exact hacc e h
    · rw [List.mem_singleton.mp h]
      exact hk

theorem mem_erqStep {P : PRat → Prop} {text : List Char} {qv : PRat}
    {acc : List (PRat × List Char × PRat)} {kw : String}
    (hacc : ∀ e ∈ acc, P e.1) (hq : P qv) :
    ∀ e ∈ erqStep text qv acc kw, P e.1 := by
  unfold erqStep
  split
  · exact hacc
  · exact mem_dictUpd hacc hq

theorem mem_erqInner {P : PRat → Prop} {text : List Char} {qv : PRat}
    (kws : List String) (acc : List (PRat × List Char × PRat))
    (hacc : ∀ e ∈ acc, P e.1) (hq : P qv) :
    ∀ e ∈ kws.foldl (fun a kw => erqStep text qv a kw) acc, P e.1 := by
  induction kws generalizing acc with
  | nil => exact hacc
  | cons kw rest ih =>
    exact ih (erqStep text qv acc kw) (mem_erqStep hacc hq)

theorem mem_erqOuter {P : PRat → Prop} {text : List Char}
    (ql : List (PRat × List String)) (acc : List (PRat × List Char × PRat))
    (hacc : ∀ e ∈ acc, P e.1) (hql : ∀ q ∈ ql, P q.1) :
    ∀ e ∈ ql.foldl (fun acc e => e.2.foldl (fun a kw => erqStep text e.1 a kw) acc) acc,
      P e.1 := by
  induction ql generalizing acc with
  | nil => exact hacc
  | cons q rest ih =>
    exact ih _ (mem_erqInner q.2 acc hacc (hql q (List.mem_cons_self q rest)))
      (fun x hx => hql x (List.mem_cons_of_mem q hx))

theorem foldl_sel_mem {α : Type} (lt : α → α → Bool) (l : List α) (b : α) :
    l.foldl (fun best y => if lt best y then y else best) b ∈ b :: l := by
  induction l generalizing b with
  | nil => exact List.mem_singleton.mpr rfl
  | cons y ys ih =>
    rw [List.foldl_cons]
    have := ih (if lt b y then y else b)
    rcases List.mem_cons.mp this with h | h
    · rw [h]
      by_cases hc : lt b y = true
      · simp only [hc, if_true]
        exact List.mem_cons_of_mem _ (List.mem_cons_self y ys)
      · simp only [hc, if_false]
        exact List.mem_cons_self b (y :: ys)
    · exact List.mem_cons_of_mem _ (List.mem_cons_of_mem _ h)

theorem pyMaxBy_mem {α : Type} {lt : α → α → Bool} {l : List α} {x : α}
    (h : pyMaxBy lt l = some x) : x ∈ l := by
  match l, h with
  | y :: ys, h =>
    have hx : x = ys.foldl (fun best z => if lt best z then z else best) y := by
      simpa [pyMaxBy] using h.symm
    rw [hx]
    exact foldl_sel_mem lt ys y

theorem erqInner_nil {text : List Char} {qv : PRat} (kws : List String)
    (acc : List (PRat × List Char × PRat))
    (h : ∀ kw ∈ kws, reSearch (qualPattern kw) text = none) :
    kws.foldl (fun a kw => erqStep text qv a kw) acc = acc := by
  induction kws generalizing acc with
  | nil => rfl
  | cons kw rest ih =>
    have hstep : erqStep text qv acc kw = acc := by
      unfold erqStep
      rw [h kw (List.mem_cons_self kw rest)]
    rw [List.foldl_cons, hstep]
    exact ih acc (fun k hk => h k (List.mem_cons_of_mem kw hk))

theorem erqResult_nil {text : List Char}
    (h : ∀ e ∈ QUALITY_LEVELS, ∀ kw ∈ e.2, reSearch (qualPattern kw) text = none) :
    erqResult text = [] := by
  unfold erqResult
  generalize hql : QUALITY_LEVELS = ql at h
  clear hql
  induction ql with
  | nil => rfl
  | cons q rest ih =>
    rw [List.foldl_cons, erqInner_nil q.2 [] (h q (List.mem_cons_self q rest))]
    exact ih (fun e he kw hkw => h e (List.mem_cons_of_mem q he) kw hkw)

/-- C2: `estimate_remaining_quality` always returns one of the five
quality values 0, 0.5, 0.75, 0.85, 1, and returns the 0.75 default
whenever none of the `QUALITY_LEVELS` keyword patterns matches the
combined lowercased title+description text. -/
theorem C2_remaining_quality_range_and_default :
    (∀ row : Row, (estimate_remaining_quality row).toRat = 0 ∨
      (estimate_remaining_quality row).toRat = 1/2 ∨
      (estimate_remaining_quality row).toRat = 3/4 ∨
      (estimate_remaining_quality row).toRat = 17/20 ∨
      (estimate_remaining_quality row).toRat = 1) ∧
    (∀ row : Row,
      (∀ e ∈ QUALITY_LEVELS, ∀ kw ∈ e.2, reSearch (qualPattern kw) (rowText row) = none) →
      (estimate_remaining_quality row).toRat = 3/4) := by
  constructor
  · intro row
    cases hE : pyMaxBy erqKeyLt (erqResult (rowText row)) with
    | none =>
      have hval : estimate_remaining_quality row = DEFAULT_QUALITY := by
        unfold estimate_remaining_quality
        rw [hE]
      right; right; left
      rw [hval]
      norm_num [DEFAULT_QUALITY, PRat.toRat]
    | some e =>
      have hval : estimate_remaining_quality row = e.1 := by
        unfold estimate_remaining_quality
        rw [hE]
      have hmem := pyMaxBy_mem hE
      have hkey : e.1 = qv0 ∨ e.1 = qv1 ∨ e.1 = qv05 ∨ e.1 = qv085 := by
        refine mem_erqOuter (P := fun x => x = qv0 ∨ x = qv1 ∨ x = qv05 ∨ x = qv085)
          QUALITY_LEVELS [] (fun x hx => absurd hx (List.not_mem_nil x)) ?_ e hmem
        intro q hq
        fin_cases hq
        · exact Or.inl rfl
        · exact Or.inr (Or.inl rfl)
        · exact Or.inr (Or.inr (Or.inl rfl))
        · exact Or.inr (Or.inr (Or.inr rfl))
      rw [hval]
      rcases hkey with h | h | h | h
      · left
        rw [h]
        norm_num [qv0, PRat.toRat]
      · right; right; right; right
        rw [h]
        norm_num [qv1, PRat.toRat]
      · right; left
        rw [h]
        norm_num [qv05, PRat.toRat]
      · right; right; right; left
        rw [h]
        norm_num [qv085, PRat.toRat]
  · intro row h
    unfold estimate_remaining_quality
    rw [erqResult_nil h]
    norm_num [pyMaxBy, DEFAULT_QUALITY, PRat.toRat]

/-- Witness for `C2_remaining_quality_range_and_default` at the empty
row, where no quality pattern matches and the 0.75 default is returned. -/
theorem C2_default_witness :
    (∀ e ∈ QUALITY_LEVELS, ∀ kw ∈ e.2,
      reSearch (qualPattern kw) (rowText rowNoFields) = none) ∧
    (estimate_remaining_quality rowNoFields).toRat = 3/4 :=
  ⟨by decide, C2_remaining_quality_range_and_default.2 rowNoFields (by decide)⟩

end BDS

namespace BDS

/-- C10 counterexample: the claim fails as stated — on a row with no
structured `Số tầng` entry whose title matches the land-sale pattern but
whose description matches the fourth-category-house pattern,
`extract_num_floors` returns 1, not 0: the description's cấp-4 branch
returns before the title is ever examined. -/
theorem C10_counterexample_cap4_preempts_title :
    structFloorStep rowLandTitleCap4Desc = .ok none ∧
    reTest oldHouseRE (floorPrep "bán ô đất".data) = true ∧
    extract_num_floors rowLandTitleCap4Desc = .ok (pyInt 1) ∧
    pyInt 1 ≠ pyInt 0 := by
  refine ⟨by decide, by decide, by decide, by decide⟩

/-- C10 (amended): with no structured `Số tầng` entry,
`extract_num_floors` returns 0 (below the documented default of 1 and
not null) when the description matches the old-house/land-sale regex;
when the description is NaN, or matches neither that regex nor the
cấp-4 regex, a title match of the old-house/land-sale regex also yields
0.  (A cấp-4 match in the description preempts the title check, as the
counterexample shows.) -/
theorem C10_floors_zero_on_old_house_or_land :
    (∀ (row : Row) (ld : List Char),
      structFloorStep row = .ok none →
      row.description = .strv ld →
      reTest oldHouseRE (floorPrep ld) = true →
      extract_num_floors row = .ok (pyInt 0)) ∧
    (∀ (row : Row) (lt : List Char),
      structFloorStep row = .ok none →
      row.description = .nanv →
      row.title = .strv lt →
      reTest oldHouseRE (floorPrep lt) = true →
      extract_num_floors row = .ok (pyInt 0)) ∧
    (∀ (row : Row) (ld lt : List Char),
      structFloorStep row = .ok none →
      row.description = .strv ld →
      reTest oldHouseRE (floorPrep ld) = false →
      reSearch cap4RE (floorPrep ld) = none →
      row.title = .strv lt →
      reTest oldHouseRE (floorPrep lt) = true →
      extract_num_floors row = .ok (pyInt 0)) := by
  refine ⟨?_, ?_, ?_⟩
  · intro row ld hs hd hm
    unfold extract_num_floors
    rw [hs, hd]
    simp [hm]
  · intro row lt hs hd ht hm
    unfold extract_num_floors
    rw [hs, hd, ht]
    simp [hm]
  · intro row ld lt hs hd hm1 hm2 ht hm3
    unfold extract_num_floors
    rw [hs, hd, ht]
    simp [hm1, hm2, hm3]

/-- Witness for `C10_floors_zero_on_old_house_or_land` at a concrete
row whose description is a land-sale phrase. -/
theorem C10_floors_zero_witness :
    structFloorStep rowLandDesc = .ok none ∧
    extract_num_floors rowLandDesc = .ok (pyInt 0) :=
  ⟨by decide,
   C10_floors_zero_on_old_house_or_land.1 rowLandDesc "bán ô đất".data
     (by decide) rfl (by decide)⟩

end BDS

namespace BDS

/-- A 33-character name at fuzzy ratio exactly 66 to `k66s`. -/
def d66s : String := String.mk (List.replicate 33 'a')

/-- A 67-character canonical key: ratio to `d66s` is 200·33/100 = 66. -/
def k66s : String := String.mk (List.replicate 33 'a' ++ List.replicate 34 'b')

/-- A 13-character name at fuzzy ratio exactly 65 to `k65s`. -/
def d65s : String := String.mk (List.replicate 13 'a')

/-- A 27-character canonical key: ratio to `d65s` is 200·13/40 = 65. -/
def k65s : String := String.mk (List.replicate 13 'a' ++ List.replicate 14 'b')

/-- C3 counterexample: `Quận 2` starts with the recognized prefix
`Quận`, yet `standardize_district` does not return it verbatim — the
`Quận 2`/`Quận 9` override to `Thành phố Thủ Đức` runs before the
prefix check. -/
theorem C3_counterexample_quan2_not_verbatim :
    "Quận".data.isPrefixOf "Quận 2".data = true ∧
    standardize_district [] (some "Thành phố Hồ Chí Minh") (some "Quận 2")
      = .ok (some "Thành phố Thủ Đức") ∧
    ("Thành phố Thủ Đức" : String) ≠ "Quận 2" := by
  refine ⟨by decide, by decide, by decide⟩

/-- C3 (amended): for a string district field, `standardize_district`
returns `Thành phố Thủ Đức` for `Quận 2`/`Quận 9`; otherwise returns a
prefixed name verbatim; otherwise the exact hit in the per-province
map; otherwise the canonical name of the FIRST district key (in map
order) whose fuzzy ratio reaches the threshold 66, or null when none
does; a ratio of exactly 66 matches while 65 does not. -/
theorem C3_district_standardization :
    (∀ (pm : List (String × List (String × String))) (p : Option String),
      standardize_district pm p none = .ok none) ∧
    (∀ (pm : List (String × List (String × String))) (p : Option String),
      standardize_district pm p (some "Quận 2") = .ok (some "Thành phố Thủ Đức") ∧
      standardize_district pm p (some "Quận 9") = .ok (some "Thành phố Thủ Đức")) ∧
    (∀ (pm : List (String × List (String × String))) (p : Option String) (d : String),
      (d == "Quận 2" || d == "Quận 9") = false →
      ADMIN_PREFIXES.any (fun pre => pre.data.isPrefixOf d.data) = true →
      standardize_district pm p (some d) = .ok (some d)) ∧
    (∀ (pm : List (String × List (String × String)))
        (m : List (String × String)) (p d c : String),
      (d == "Quận 2" || d == "Quận 9") = false →
      ADMIN_PREFIXES.any (fun pre => pre.data.isPrefixOf d.data) = false →
      alistGet pm p = some m →
      alistGet m d = some c →
      standardize_district pm (some p) (some d) = .ok (some c)) ∧
    (∀ (pm : List (String × List (String × String)))
        (m : List (String × String)) (p d : String),
      (d == "Quận 2" || d == "Quận 9") = false →
      ADMIN_PREFIXES.any (fun pre => pre.data.isPrefixOf d.data) = false →
      alistGet pm p = some m →
      alistGet m d = none →
      standardize_district pm (some p) (some d)
        = .ok ((m.find? (fun e => fuzzGe d.data e.1.data 66)).map Prod.snd)) ∧
    (fuzzRatio d66s.data k66s.data = 66 ∧
      standardize_district [("P", [(k66s, "Huyện Mẫu")])] (some "P") (some d66s)
        = .ok (some "Huyện Mẫu")) ∧
    (fuzzRatio d65s.data k65s.data = 65 ∧
      standardize_district [("P", [(k65s, "Huyện Mẫu")])] (some "P") (some d65s)
        = .ok none) := by
  refine ⟨?_, ?_, ?_, ?_, ?_, ⟨?_, by decide⟩, ⟨?_, by decide⟩⟩
  · intro pm p
    rfl
  · intro pm p
    exact ⟨rfl, rfl⟩
  · intro pm p d hq hpre
    simp [standardize_district, hq, hpre]
  · intro pm m p d c hq hpre hpm hd
    simp [standardize_district, hq, hpre, hpm, hd]
  · intro pm m p d hq hpre hpm hd
    simp only [standardize_district, hq, hpre, hpm, hd]
    cases hf : m.find? (fun e => fuzzGe d.data e.1.data 66) with
    | none => simp [hf]
    | some e => simp [hf]
  · have hl : lcsLen d66s.data k66s.data = 33 := by decide
    have h1 : d66s.data.length = 33 := by decide
    have h2 : k66s.data.length = 67 := by decide
    rw [fuzzRatio, h1, h2, hl]
    norm_num
  · have hl : lcsLen d65s.data k65s.data = 13 := by decide
    have h1 : d65s.data.length = 13 := by decide
    have h2 : k65s.data.length = 27 := by decide
    rw [fuzzRatio, h1, h2, hl]
    norm_num

/-- Witness for `C3_district_standardization` (prefix conjunct) at a
concrete prefixed district name. -/
theorem C3_district_witness :
    standardize_district [] none (some "Huyện Gia Lâm") = .ok (some "Huyện Gia Lâm") :=
  C3_district_standardization.2.2.1 [] none "Huyện Gia Lâm" (by decide) (by decide)

end BDS

namespace BDS

/-- C4 counterexample: with price 100, cost 1, land area 10, quality 1
and floor area 200 the building value 200 reaches the asking price, and
`calculate_land_unit_price` returns null — not the claimed
`total_price ÷ land_area = 10`. -/
theorem C4_counterexample_building_exceeds_price :
    calculate_land_unit_price (some (pyInt 100)) (some (pyInt 1)) (some (pyInt 10))
      (some (pyInt 1)) (some (pyInt 200)) = none ∧
    ((pyInt 100).toRat / (pyInt 10).toRat = 10) := by
  refine ⟨by decide, by norm_num [pyInt, PRat.toRat]⟩

/-- C4 (amended): with all five fields present and positive areas,
`calculate_land_unit_price` returns null when the building value
`cost·floor_area·quality` reaches the asking price, and
`(price − building value) / land_area`, rounded to two decimals,
otherwise. -/
theorem C4_land_unit_price (p c a q f : PRat)
    (hp : p.WF) (hc : c.WF) (ha : a.WF) (hq : q.WF) (hf : f.WF)
    (ha0 : 0 < a.toRat) (hf0 : 0 < f.toRat) :
    (p.toRat ≤ c.toRat * f.toRat * q.toRat →
      calculate_land_unit_price (some p) (some c) (some a) (some q) (some f) = none) ∧
    (c.toRat * f.toRat * q.toRat < p.toRat →
      ∃ w, calculate_land_unit_price (some p) (some c) (some a) (some q) (some f) = some w ∧
        w.toRat = qround2 ((p.toRat - c.toRat * f.toRat * q.toRat) / a.toRat)) := by
  have wf0 : (pyInt 0).WF := by norm_num [pyInt, PRat.WF]
  have hga : PRat.ble a (pyInt 0) = false := by
    by_cases h : PRat.ble a (pyInt 0) = true
    · exfalso
      rw [PRat.ble_iff ha wf0, PRat.toRat_pyInt] at h
      push_cast at h
      linarith
    · exact Bool.not_eq_true _ ▸ eq_false_of_ne_true h
  have hgf : PRat.ble f (pyInt 0) = false := by
    by_cases h : PRat.ble f (pyInt 0) = true
    · exfalso
      rw [PRat.ble_iff hf wf0, PRat.toRat_pyInt] at h
      push_cast at h
      linarith
    · exact Bool.not_eq_true _ ▸ eq_false_of_ne_true h
  have hbWF : ((c.mul f).mul q).WF := PRat.WF_mul (PRat.WF_mul hc hf) hq
  have hB : ((c.mul f).mul q).toRat = c.toRat * f.toRat * q.toRat := by
    rw [PRat.toRat_mul (PRat.WF_mul hc hf) hq, PRat.toRat_mul hc hf]
  constructor
  · intro hle
    have hble : PRat.ble p ((c.mul f).mul q) = true := by
      rw [PRat.ble_iff hp hbWF, hB]
      exact hle
    simp [calculate_land_unit_price, hga, hgf, hble]
  · intro hlt
    have hble : PRat.ble p ((c.mul f).mul q) = false := by
      by_cases h : PRat.ble p ((c.mul f).mul q) = true
      · exfalso
        rw [PRat.ble_iff hp hbWF, hB] at h
        linarith
      · exact Bool.not_eq_true _ ▸ eq_false_of_ne_true h
    refine ⟨((p.sub ((c.mul f).mul q)).div a).round2, ?_, ?_⟩
    · simp [calculate_land_unit_price, hga, hgf, hble]
    · have hanum : a.num ≠ 0 := by
        intro h0
        rw [PRat.toRat, h0] at ha0
        norm_num at ha0
      have hsWF : (p.sub ((c.mul f).mul q)).WF := PRat.WF_sub hp hbWF
      rw [PRat.toRat_round2 (PRat.WF_div hsWF hanum)]
      rw [PRat.toRat_div hsWF ha ha0.ne']
      rw [PRat.toRat_sub hp hbWF, hB]

/-- Witness for `C4_land_unit_price` at a concrete row: price 200,
cost 1, area 10, quality 1, floor area 100 → building value 100 and
land unit price `(200 − 100) / 10 = 10`. -/
theorem C4_land_unit_price_witness :
    ∃ w, calculate_land_unit_price (some (pyInt 200)) (some (pyInt 1)) (some (pyInt 10))
      (some (pyInt 1)) (some (pyInt 100)) = some w ∧
      w.toRat = qround2 (((pyInt 200).toRat -
        (pyInt 1).toRat * (pyInt 100).toRat * (pyInt 1).toRat) / (pyInt 10).toRat) :=
  (C4_land_unit_price (pyInt 200) (pyInt 1) (pyInt 10) (pyInt 1) (pyInt 100)
    (by norm_num [pyInt, PRat.WF]) (by norm_num [pyInt, PRat.WF])
    (by norm_num [pyInt, PRat.WF]) (by norm_num [pyInt, PRat.WF])
    (by norm_num [pyInt, PRat.WF])
    (by norm_num [pyInt, PRat.toRat]) (by norm_num [pyInt, PRat.toRat])).2
    (by norm_num [pyInt, PRat.toRat])

end BDS

namespace BDS

/-- C8: `is_on_main_road` consults the near-but-not-on patterns first
and returns false whenever any of them matches the lowercased text,
before any on-road pattern is consulted; in particular
`is_on_main_road("cách mặt phố 50m")` is false and
`is_on_main_road("nhà mặt tiền đường Lê Lợi")` is true. -/
theorem C8_near_patterns_take_precedence :
    (∀ text : List Char,
      nearButNotOn.any (fun p => reTest p (strLower text)) = true →
      is_on_main_road text = false) ∧
    is_on_main_road "cách mặt phố 50m".data = false ∧
    is_on_main_road "nhà mặt tiền đường Lê Lợi".data = true := by
  refine ⟨?_, by decide, by decide⟩
  intro text h
  simp [is_on_main_road, h]

/-- Witness for `C8_near_patterns_take_precedence`: the near-distance
phrase makes a near pattern match, and the predicate is false there. -/
theorem C8_near_witness :
    nearButNotOn.any (fun p => reTest p (strLower "cách mặt phố 50m".data)) = true ∧
    is_on_main_road "cách mặt phố 50m".data = false :=
  ⟨by decide, C8_near_patterns_take_precedence.1 "cách mặt phố 50m".data (by decide)⟩

end BDS

namespace BDS

/-! ## Lemmas for C7 -/

theorem takeWhile_all {p : Char → Bool} {l : List Char} (h : ∀ c ∈ l, p c = true) :
    l.takeWhile p = l := by
  induction l with
  | nil => rfl
  | cons c rest ih =>
    rw [List.takeWhile_cons_of_pos (h c (List.mem_cons_self c rest))]
    rw [ih (fun x hx => h x (List.mem_cons_of_mem c hx))]

theorem dropWhile_all {p : Char → Bool} {l : List Char} (h : ∀ c ∈ l, p c = true) :
    l.dropWhile p = [] := by
  induction l with
  | nil => rfl
  | cons c rest ih =>
    rw [List.dropWhile_cons_of_pos (h c (List.mem_cons_self c rest))]
    exact ih (fun x hx => h x (List.mem_cons_of_mem c hx))

theorem takeWhile_append_stop {p : Char → Bool} {l1 l2 : List Char} {x : Char}
    (h1 : ∀ c ∈ l1, p c = true) (hx : p x = false) :
    (l1 ++ x :: l2).takeWhile p = l1 := by
  induction l1 with
  | nil =>
    rw [List.nil_append, List.takeWhile_cons_of_neg]
    simp [hx]
  | cons c rest ih =>
    rw [List.cons_append, List.takeWhile_cons_of_pos (h1 c (List.mem_cons_self c rest))]
    rw [ih (fun y hy => h1 y (List.mem_cons_of_mem c hy))]

theorem dropWhile_append_stop {p : Char → Bool} {l1 l2 : List Char} {x : Char}
    (h1 : ∀ c ∈ l1, p c = true) (hx : p x = false) :
    (l1 ++ x :: l2).dropWhile p = x :: l2 := by
  induction l1 with
  | nil =>
    rw [List.nil_append, List.dropWhile_cons_of_neg]
    simp [hx]
  | cons c rest ih =>
    rw [List.cons_append, List.dropWhile_cons_of_pos (h1 c (List.mem_cons_self c rest))]
    exact ih (fun y hy => h1 y (List.mem_cons_of_mem c hy))

theorem firstNumToken_all {l : List Char} (hne : l ≠ [])
    (h : ∀ c ∈ l, isNumTokChar c = true) : firstNumToken l = some l := by
  match l, hne with
  | c :: rest, _ =>
    have hc := h c (List.mem_cons_self c rest)
    have ht : rest.takeWhile isNumTokChar = rest :=
      takeWhile_all (fun x hx => h x (List.mem_cons_of_mem c hx))
    unfold firstNumToken
    rw [hc]
    simp [ht]

theorem removeChar_id {x : Char} {l : List Char} (h : ∀ c ∈ l, c ≠ x) :
    removeChar x l = l := by
  unfold removeChar
  induction l with
  | nil => rfl
  | cons c rest ih =>
    rw [List.filter_cons]
    have hb : (c != x) = true := by
      simp only [bne_iff_ne, ne_eq]
      exact h c (List.mem_cons_self c rest)
    rw [hb]
    simp only [if_true]
    rw [ih (fun y hy => h y (List.mem_cons_of_mem c hy))]

theorem replaceChar_id {old new : Char} {l : List Char} (h : ∀ c ∈ l, c ≠ old) :
    replaceChar old new l = l := by
  unfold replaceChar
  induction l with
  | nil => rfl
  | cons c rest ih =>
    rw [List.map_cons]
    have hb : (c == old) = false := by
      simp only [beq_eq_false_iff_ne, ne_eq]
      exact h c (List.mem_cons_self c rest)
    rw [if_neg (by simp [hb] : ¬ ((c == old) = true))]
    rw [ih (fun y hy => h y (List.mem_cons_of_mem c hy))]

theorem digit_ne {c x : Char} (hd : c.isDigit = true) (hx : x.isDigit = false) : c ≠ x := by
  intro h
  rw [h] at hd
  rw [hd] at hx
  cases hx

theorem digit_isNumTok {c : Char} (hd : c.isDigit = true) : isNumTokChar c = true := by
  simp [isNumTokChar, hd]

theorem foldl_digits_acc (bs : List Char) (acc : Nat) :
    bs.foldl (fun a c => 10 * a + (c.toNat - 48)) acc
      = acc * 10 ^ bs.length + bs.foldl (fun a c => 10 * a + (c.toNat - 48)) 0 := by
  induction bs generalizing acc with
  | nil => simp
  | cons b rest ih =>
    rw [List.foldl_cons, List.foldl_cons, ih, ih (10 * 0 + (b.toNat - 48))]
    rw [List.length_cons]
    ring

theorem natOfDigits_append (as bs : List Char) :
    natOfDigits (as ++ bs) = natOfDigits as * 10 ^ bs.length + natOfDigits bs := by
  unfold natOfDigits
  rw [List.foldl_append]
  exact foldl_digits_acc bs _

theorem floatSign_other {c : Char} (rest : List Char) (hm : c ≠ '-') (hp : c ≠ '+') :
    floatSign (c :: rest) = (1, c :: rest) := by
  unfold floatSign
  split
  · rename_i heq
    exact absurd (List.head_eq_of_cons_eq heq) hm
  · rename_i heq
    exact absurd (List.head_eq_of_cons_eq heq) hp
  · rfl

/-- `float` on a non-empty all-digit string. -/
theorem floatParse_digits {l : List Char} (hne : l ≠ [])
    (h : ∀ c ∈ l, c.isDigit = true) :
    floatParse l = some ⟨(natOfDigits l : Int), 1⟩ := by
  match l, hne with
  | c :: rest, _ =>
    have hc := h c (List.mem_cons_self c rest)
    have hcm : c ≠ '-' := digit_ne hc (by decide)
    have hcp : c ≠ '+' := digit_ne hc (by decide)
    simp only [floatParse, floatSign_other rest hcm hcp]
    rw [takeWhile_all h, dropWhile_all h]
    simp

/-- `float` on `<digits>.<digits>`. -/
theorem floatParse_point {a : Char} {as1 bs : List Char}
    (ha : ∀ c ∈ a :: as1, c.isDigit = true) (hb : ∀ c ∈ bs, c.isDigit = true) :
    floatParse ((a :: as1) ++ '.' :: bs)
      = some ⟨(natOfDigits (a :: as1) * 10 ^ bs.length + natOfDigits bs : Int),
          (10 : Int) ^ bs.length⟩ := by
  have hc := ha a (List.mem_cons_self a as1)
  have hcm : a ≠ '-' := digit_ne hc (by decide)
  have hcp : a ≠ '+' := digit_ne hc (by decide)
  have hsign : floatSign ((a :: as1) ++ '.' :: bs) = (1, (a :: as1) ++ '.' :: bs) := by
    rw [List.cons_append]
    exact floatSign_other _ hcm hcp
  simp only [floatParse, hsign]
  rw [takeWhile_append_stop ha (by decide), dropWhile_append_stop ha (by decide)]
  split
  · rename_i heq
    simp at heq
  · rename_i r2 heq
    rw [List.cons_eq_cons] at heq
    obtain ⟨-, hr2⟩ := heq
    subst hr2
    rw [takeWhile_all hb, dropWhile_all hb]
    simp
  · rename_i hne1 hne2
    exact absurd rfl (hne2 bs)

theorem pcw_mem_split {a : Char} {as1 bs : List Char} {c : Char}
    (hda : ∀ c ∈ a :: as1, c.isDigit = true) (hdb : ∀ c ∈ bs, c.isDigit = true)
    (hc : c ∈ (a :: as1) ++ ',' :: bs) : c.isDigit = true ∨ c = ',' := by
  rcases List.mem_append.mp hc with h | h
  · exact Or.inl (hda c h)
  · rcases List.mem_cons.mp h with h | h
    · exact Or.inr h
    · exact Or.inl (hdb c h)

/-- C7 counterexample: on the input `"1,234"` the comma reading `1.234`
is at most 20, so `parse_and_clean_width` keeps it and returns
`round(1.234, 2) = 1.23`, not the thousands reading `1234` given as the
example in the specification. -/
theorem C7_counterexample_comma_decimal :
    parse_and_clean_width (some "1,234".data) = some ⟨123, 100⟩ ∧
    (⟨123, 100⟩ : PRat).toRat = 123 / 100 ∧ ((123 : ℚ) / 100 ≠ 1234) := by
  refine ⟨by decide, ?_, by norm_num⟩
  norm_num [PRat.toRat]

/-- C7 (amended): for a token `<digits>,<digits>`, `parse_and_clean_width`
reads the comma as a decimal point; when that reading is at most 20 the
result is the reading rounded to two decimals (so `"1,234"` gives `1.23`,
not `1234`), and only when the reading exceeds 20 is the comma dropped
and the token re-read as a plain integer. -/
theorem C7_width_comma_parsing (as bs : List Char) (hane : as ≠ []) (hbne : bs ≠ [])
    (hda : ∀ c ∈ as, c.isDigit = true) (hdb : ∀ c ∈ bs, c.isDigit = true) :
    ((natOfDigits as : ℚ) + (natOfDigits bs : ℚ) / 10 ^ bs.length ≤ 20 →
      ∃ w, parse_and_clean_width (some (as ++ ',' :: bs)) = some w ∧
        w.toRat = qround2 ((natOfDigits as : ℚ) + (natOfDigits bs : ℚ) / 10 ^ bs.length)) ∧
    (20 < (natOfDigits as : ℚ) + (natOfDigits bs : ℚ) / 10 ^ bs.length →
      ∃ w, parse_and_clean_width (some (as ++ ',' :: bs)) = some w ∧
        w.toRat = (natOfDigits (as ++ bs) : ℚ)) := by
  obtain ⟨a, as1, rfl⟩ : ∃ a as1, as = a :: as1 := by
    cases as with
    | nil => exact absurd rfl hane
    | cons a as1 => exact ⟨a, as1, rfl⟩
  have h1 : firstNumToken ((a :: as1) ++ ',' :: bs) = some ((a :: as1) ++ ',' :: bs) := by
    refine firstNumToken_all (by simp) ?_
    intro c hc
    rcases pcw_mem_split hda hdb hc with h | h
    · exact digit_isNumTok h
    · rw [h]; decide
  have h2 : ((a :: as1) ++ ',' :: bs).contains ',' = true := by simp
  have hnd : ∀ c ∈ (a :: as1) ++ ',' :: bs, c ≠ '.' := by
    intro c hc
    rcases pcw_mem_split hda hdb hc with h | h
    · exact digit_ne h (by decide)
    · rw [h]; decide
  have h3 : removeChar '.' ((a :: as1) ++ ',' :: bs) = (a :: as1) ++ ',' :: bs :=
    removeChar_id hnd
  have hanc : ∀ c ∈ a :: as1, c ≠ ',' := fun c hc => digit_ne (hda c hc) (by decide)
  have hbnc : ∀ c ∈ bs, c ≠ ',' := fun c hc => digit_ne (hdb c hc) (by decide)
  have h4 : replaceChar ',' '.' ((a :: as1) ++ ',' :: bs) = (a :: as1) ++ '.' :: bs := by
    have hsplit : replaceChar ',' '.' ((a :: as1) ++ ',' :: bs)
        = replaceChar ',' '.' (a :: as1) ++ '.' :: replaceChar ',' '.' bs := by
      simp [replaceChar]
    rw [hsplit, replaceChar_id hanc, replaceChar_id hbnc]
  have h2i : (if ((a :: as1) ++ ',' :: bs).contains ',' = true then
        replaceChar ',' '.' (removeChar '.' ((a :: as1) ++ ',' :: bs))
      else (a :: as1) ++ ',' :: bs) = (a :: as1) ++ '.' :: bs := by
    rw [if_pos h2, h3, h4]
  have h5 : removeChar ',' ((a :: as1) ++ ',' :: bs) = (a :: as1) ++ bs := by
    have hsplit : removeChar ',' ((a :: as1) ++ ',' :: bs)
        = removeChar ',' (a :: as1) ++ removeChar ',' bs := by
      unfold removeChar
      rw [List.filter_append, List.filter_cons]
      simp
    rw [hsplit, removeChar_id hanc, removeChar_id hbnc]
  have fp1 := floatParse_point hda hdb
  have fp2 : floatParse ((a :: as1) ++ bs)
      = some ⟨(natOfDigits ((a :: as1) ++ bs) : Int), 1⟩ := by
    refine floatParse_digits (by simp) ?_
    intro c hc
    rcases List.mem_append.mp hc with h | h
    · exact hda c h
    · exact hdb c h
  have wf20 : (pyInt 20).WF := by norm_num [pyInt, PRat.WF]
  have wfpv : (⟨(natOfDigits (a :: as1) * 10 ^ bs.length + natOfDigits bs : Int),
      (10 : Int) ^ bs.length⟩ : PRat).WF := by
    simp only [PRat.WF]
    positivity
  have hv : (⟨(natOfDigits (a :: as1) * 10 ^ bs.length + natOfDigits bs : Int),
        (10 : Int) ^ bs.length⟩ : PRat).toRat
      = (natOfDigits (a :: as1) : ℚ) + (natOfDigits bs : ℚ) / 10 ^ bs.length := by
    simp only [PRat.toRat]
    have hpow : ((10 : ℚ)) ^ bs.length ≠ 0 := by positivity
    push_cast
    field_simp
    try ring
  have hev : parse_and_clean_width (some ((a :: as1) ++ ',' :: bs)) =
      if PRat.blt (pyInt 20)
          ⟨(natOfDigits (a :: as1) * 10 ^ bs.length + natOfDigits bs : Int),
            (10 : Int) ^ bs.length⟩ then
        some (⟨(natOfDigits ((a :: as1) ++ bs) : Int), 1⟩ : PRat).round2
      else
        some (⟨(natOfDigits (a :: as1) * 10 ^ bs.length + natOfDigits bs : Int),
          (10 : Int) ^ bs.length⟩ : PRat).round2 := by
    simp only [parse_and_clean_width, h1, h2i, fp1, h5, fp2]
  have h20 : ((20 : Int) : ℚ) = 20 := by norm_num
  constructor
  · intro hle
    have hbltf : PRat.blt (pyInt 20)
        ⟨(natOfDigits (a :: as1) * 10 ^ bs.length + natOfDigits bs : Int),
          (10 : Int) ^ bs.length⟩ = false := by
      by_contra hB
      rw [Bool.not_eq_false] at hB
      have hlt := (PRat.blt_iff wf20 wfpv).mp hB
      rw [PRat.toRat_pyInt, hv, h20] at hlt
      linarith
    refine ⟨(⟨(natOfDigits (a :: as1) * 10 ^ bs.length + natOfDigits bs : Int),
        (10 : Int) ^ bs.length⟩ : PRat).round2, ?_, ?_⟩
    · rw [hev, hbltf]
      simp
    · rw [PRat.toRat_round2 wfpv, hv]
  · intro hgt
    have hbltt : PRat.blt (pyInt 20)
        ⟨(natOfDigits (a :: as1) * 10 ^ bs.length + natOfDigits bs : Int),
          (10 : Int) ^ bs.length⟩ = true := by
      rw [PRat.blt_iff wf20 wfpv, PRat.toRat_pyInt, hv, h20]
      exact hgt
    refine ⟨(⟨(natOfDigits ((a :: as1) ++ bs) : Int), 1⟩ : PRat).round2, ?_, ?_⟩
    · rw [hev, hbltt]
      simp
    · have wf1 : (⟨(natOfDigits ((a :: as1) ++ bs) : Int), 1⟩ : PRat).WF := by
        norm_num [PRat.WF]
      have ht : (⟨(natOfDigits ((a :: as1) ++ bs) : Int), 1⟩ : PRat).toRat
          = ((natOfDigits ((a :: as1) ++ bs) : Int) : ℚ) := by
        simp [PRat.toRat]
      rw [PRat.toRat_round2 wf1, ht, qround2_intCast]
      norm_cast

/-- C7 witness: `"3,5"` reads as `3.5 ≤ 20` and the parser returns it
rounded to two decimals. -/
theorem C7_width_comma_witness :
    (natOfDigits "3".data : ℚ) + (natOfDigits "5".data : ℚ) / 10 ^ "5".data.length ≤ 20 ∧
    ∃ w, parse_and_clean_width (some ("3".data ++ ',' :: "5".data)) = some w ∧
      w.toRat = qround2 ((natOfDigits "3".data : ℚ)
        + (natOfDigits "5".data : ℚ) / 10 ^ "5".data.length) := by
  have h3 : natOfDigits "3".data = 3 := by decide
  have h5 : natOfDigits "5".data = 5 := by decide
  have hlen : "5".data.length = 1 := by decide
  have hle : (natOfDigits "3".data : ℚ)
      + (natOfDigits "5".data : ℚ) / 10 ^ "5".data.length ≤ 20 := by
    rw [h3, h5, hlen]
    norm_num
  exact ⟨hle, (C7_width_comma_parsing "3".data "5".data (by decide) (by decide)
    (by decide) (by decide)).1 hle⟩

end BDS
